import Mathlib

/-!
# Verification of the BuriBuri_Trading decision core

A shallow embedding, in Lean 4, of the rule-based portfolio advisory pipeline:
`vitals_monitor.compute_vitals`, `volatility_metrics.compute_atr`,
`news_scorer.score_tech_news`, `sector_confidence.compute_sector_confidence`,
`capital_lock_in.detect_capital_lock_in`, `concentration_guard.*`,
`opportunity_logic.scan_for_opportunities`, `decision_explainer.*`,
`risk_guardrails.apply_risk_guardrails` and
`decision_engine.determine_market_posture` / `run_decision_engine`.

Modelling conventions:
* Python floats are modelled as exact rationals (`ℚ`).  Python's `round(x, n)`
  (round-half-to-even on the decimal value) is modelled by `pyRoundHalfEven`
  scaled by `10^n`.
* Python dicts with optional keys are modelled as structures with `Option`
  fields; `d.get(k, default)` becomes `Option.getD`, and a direct `d[k]`
  access becomes an `Except`-failure (`KeyError`) when the field is `none`.
* Code that can raise returns `Except String α`; pure code returns plain
  values.
* Presentation-only outputs (`pm_summary`, the randomised
  `superiority_analysis`, the prose `summary`/`details` strings of the
  lock-in and opportunity reports, and the `drivers` breakdown of
  `compute_vitals`) are omitted as values: no downstream decision logic
  reads them.  Their error paths are kept: `generate_pm_summary` divides
  `cash / total` with `total = portfolio_state.get("total_capital", 1)`
  unguarded (decision_engine.py lines 24-25, called unconditionally at
  line 499), so the embedding returns a `ZeroDivisionError` failure when
  that divisor is zero; `_structure_superiority_output` only uses `.get`
  accesses, guarded divisions by constants and always-present decision
  keys, so it has no error path to keep.
  Numeric values inside the reason strings that are kept are rendered with
  `toString` on `ℚ`, which differs textually (not numerically) from Python's
  float formatting.
-/

/-! ## Rounding (Python `round(x, ndigits)`) -/

/-- `Rat.floor` (a plain executable definition) agrees with Mathlib's `⌊·⌋`. -/
theorem ratFloor_eq_intFloor (q : ℚ) : Rat.floor q = ⌊q⌋ := by
  rw [Rat.floor_def', ← Rat.floor_def]

/-- Round a rational to the nearest integer, ties to even — the semantics of
Python's builtin `round`.  Written with `Rat.floor` so that it evaluates
inside the kernel. -/
def pyRoundHalfEven (q : ℚ) : ℤ :=
  if q - (Rat.floor q : ℚ) < 1/2 then Rat.floor q
  else if 1/2 < q - (Rat.floor q : ℚ) then Rat.floor q + 1
  else if Rat.floor q % 2 = 0 then Rat.floor q else Rat.floor q + 1

/-- Python `round(q, d)`: round at `d` decimal places, ties to even. -/
def roundToDec (d : ℕ) (q : ℚ) : ℚ :=
  (pyRoundHalfEven (q * 10 ^ d) : ℚ) / 10 ^ d

theorem pyRoundHalfEven_le (q : ℚ) : (pyRoundHalfEven q : ℚ) ≤ q + 1/2 := by
  unfold pyRoundHalfEven
  simp only [ratFloor_eq_intFloor]
  have h0 : (⌊q⌋ : ℚ) ≤ q := Int.floor_le q
  have h1 : q < (⌊q⌋ : ℚ) + 1 := Int.lt_floor_add_one q
  split
  · linarith
  · split
    · push_cast; linarith
    · split
      · linarith
      · push_cast; linarith

theorem le_pyRoundHalfEven (q : ℚ) : q - 1/2 ≤ (pyRoundHalfEven q : ℚ) := by
  unfold pyRoundHalfEven
  simp only [ratFloor_eq_intFloor]
  have h0 : (⌊q⌋ : ℚ) ≤ q := Int.floor_le q
  have h1 : q < (⌊q⌋ : ℚ) + 1 := Int.lt_floor_add_one q
  split
  · linarith
  · split
    · push_cast; linarith
    · split
      · linarith
      · push_cast; linarith

theorem pyRoundHalfEven_le_intCast {q : ℚ} {n : ℤ} (h : q ≤ (n : ℚ)) :
    pyRoundHalfEven q ≤ n := by
  by_contra hcon
  have hge : n + 1 ≤ pyRoundHalfEven q := by omega
  have : ((n : ℚ) + 1) ≤ (pyRoundHalfEven q : ℚ) := by exact_mod_cast hge
  have := pyRoundHalfEven_le q
  linarith

theorem intCast_le_pyRoundHalfEven {q : ℚ} {n : ℤ} (h : (n : ℚ) ≤ q) :
    n ≤ pyRoundHalfEven q := by
  by_contra hcon
  have hge : pyRoundHalfEven q + 1 ≤ n := by omega
  have : ((pyRoundHalfEven q : ℚ) + 1) ≤ (n : ℚ) := by exact_mod_cast hge
  have := le_pyRoundHalfEven q
  linarith

theorem roundToDec_nonneg {d : ℕ} {q : ℚ} (h : 0 ≤ q) : 0 ≤ roundToDec d q := by
  unfold roundToDec
  have hp : (0:ℚ) < 10 ^ d := by positivity
  have h0 : (0:ℤ) ≤ pyRoundHalfEven (q * 10 ^ d) := by
    apply intCast_le_pyRoundHalfEven
    push_cast
    positivity
  have : (0:ℚ) ≤ (pyRoundHalfEven (q * 10 ^ d) : ℚ) := by exact_mod_cast h0
  positivity

theorem roundToDec_le_hundred {d : ℕ} {q : ℚ} (h : q ≤ 100) :
    roundToDec d q ≤ 100 := by
  unfold roundToDec
  have hp : (0:ℚ) < 10 ^ d := by positivity
  have h0 : pyRoundHalfEven (q * 10 ^ d) ≤ (100 * 10 ^ d : ℤ) := by
    apply pyRoundHalfEven_le_intCast
    push_cast
    nlinarith
  have hc : (pyRoundHalfEven (q * 10 ^ d) : ℚ) ≤ ((100 * 10 ^ d : ℤ) : ℚ) := by
    exact_mod_cast h0
  rw [div_le_iff₀ hp]
  push_cast at hc ⊢
  linarith

theorem roundToDec_le_add {d : ℕ} (q : ℚ) :
    roundToDec d q ≤ q + 1 / (2 * 10 ^ d) := by
  unfold roundToDec
  have hp : (0:ℚ) < 10 ^ d := by positivity
  have := pyRoundHalfEven_le (q * 10 ^ d)
  rw [div_le_iff₀ hp]
  have : q + 1 / (2 * 10 ^ d) = (q * 10 ^ d + 1/2) / 10 ^ d := by
    field_simp; ring
  rw [this, div_mul_cancel₀ _ (ne_of_gt hp)]
  linarith [pyRoundHalfEven_le (q * 10 ^ d)]

/-! ## Substring test (Python `needle in haystack`) -/

/-- Python's `needle in haystack` on strings: `needle` occurs as a contiguous
substring of `haystack`. -/
def substrIn (needle hay : String) : Bool :=
  (List.range (hay.toList.length + 1)).any
    (fun i => needle.toList.isPrefixOf (hay.toList.drop i))

/-! ## vitals_monitor.compute_vitals -/

/-- A raw input position dict.  Every key may be absent (`compute_vitals`
reads each one with `.get(key, default)`).  Numeric values are rationals;
`days_held` is an integer, matching the `int(...)` coercion in the source. -/
structure PyPosition where
  symbol : Option String
  sector : Option String
  entry_price : Option ℚ
  current_price : Option ℚ
  atr : Option ℚ
  days_held : Option ℤ
  capital_allocated : Option ℚ
deriving DecidableEq

/-- Result dict of `compute_vitals` (the presentation-only `drivers`
breakdown is omitted; nothing downstream reads it). -/
structure VitalsResult where
  symbol : String
  vitals_score : ℚ
  health : String
  suggested_action : String
  flags : List String
deriving DecidableEq

/-- Section 5 of `compute_vitals` (vitals_monitor.py lines 100-130): the
health classification thresholds on the rounded score. -/
def healthClassification (symbol : String) (vitals_score : ℚ)
    (flags : List String) : VitalsResult :=
  if vitals_score < 40 then
    { symbol := symbol, vitals_score := vitals_score, health := "UNHEALTHY"
      suggested_action := "REDUCE / EXIT", flags := flags }
  else if vitals_score < 60 then
    { symbol := symbol, vitals_score := vitals_score, health := "WEAK"
      suggested_action := "HOLD / MONITOR", flags := flags }
  else
    { symbol := symbol, vitals_score := vitals_score, health := "HEALTHY"
      suggested_action := "HOLD / SCALE", flags := flags }

/-- `vitals_monitor.compute_vitals` (vitals_monitor.py lines 5-130). -/
def compute_vitals (position : PyPosition) : VitalsResult :=
  let symbol := position.symbol.getD "UNKNOWN"
  let entry_price := position.entry_price.getD 0
  let current_price := position.current_price.getD 0
  let atr := position.atr.getD 0
  let days_held := position.days_held.getD 0
  let capital_allocated := position.capital_allocated.getD 0
  if entry_price ≤ 0 then
    { symbol := symbol
      vitals_score := 0
      health := "UNHEALTHY"
      suggested_action := "REDUCE / EXIT (Data Error: Invalid Entry Price)"
      flags := ["DATA_ERROR"] }
  else
    let pnl_pct := (current_price - entry_price) / entry_price * 100
    let safe_atr := max atr (1/10000)
    let vol_adj_return := pnl_pct / safe_atr
    let time_penalty := (days_held : ℚ) / 10
    let safe_capital := max capital_allocated 1
    let capital_efficiency := pnl_pct / (safe_capital / 100000)
    let raw_efficiency :=
      0.5 * vol_adj_return + 0.3 * capital_efficiency - 0.2 * time_penalty
    let efficiency_score := max 0 (min 100 (50 + raw_efficiency * 10))
    let vitals_score := roundToDec 2 efficiency_score
    let flags := if pnl_pct < 2 ∧ days_held > 20 then ["STAGNANT"] else []
    healthClassification symbol vitals_score flags

/-! ## volatility_metrics -/

/-- One OHLC candle dict; every key read via `.get` with default. -/
structure Candle where
  timestamp : Option String
  high : Option ℚ
  low : Option ℚ
  close : Option ℚ
deriving DecidableEq

/-- Result dict of `compute_atr`. -/
structure AtrResult where
  atr : Option ℚ
deriving DecidableEq

/-- True range of `current` against `prev` (volatility_metrics.py lines 41-57). -/
def trueRange (prev current : Candle) : ℚ :=
  let current_h := current.high.getD 0
  let current_l := current.low.getD 0
  let prev_c := prev.close.getD 0
  max (current_h - current_l) (max |current_h - prev_c| |current_l - prev_c|)

/-- The TR series over consecutive pairs of the sorted candle list. -/
def trSeries : List Candle → List ℚ
  | [] => []
  | [_] => []
  | a :: b :: rest => trueRange a b :: trSeries (b :: rest)

/-- `volatility_metrics.compute_atr` (lines 3-72): sort ascending by the
timestamp string, take the mean of the last `period` true ranges, round to
4 decimals; `none` when fewer than `period + 1` candles. -/
def compute_atr (candles : List Candle) (period : ℕ) : AtrResult :=
  if candles.isEmpty then ⟨none⟩
  else if candles.length < period + 1 then ⟨none⟩
  else
    let sorted_candles :=
      candles.mergeSort (fun a b => a.timestamp.getD "" ≤ b.timestamp.getD "")
    let tr_values := trSeries sorted_candles
    if tr_values.length < period then ⟨none⟩
    else
      let recent_tr := tr_values.drop (tr_values.length - period)
      ⟨some (roundToDec 4 (recent_tr.sum / (period : ℚ)))⟩

/-- Result dict of `classify_volatility_state`. -/
structure VolClassification where
  volatility_state : String
deriving DecidableEq

/-- Modelled from the spec: `classify_volatility_state` is imported and called
by decision_engine.py, full_system_demo.py and the tests, but its definition
is missing from src/volatility_metrics.py.  Spec §4.2:
`pct_change = (current-baseline)/baseline*100`; `EXPANDING` if
`> threshold_pct`, `CONTRACTING` if `< -threshold_pct`, else `STABLE`;
`baseline_atr <= 0` fail-safes to `STABLE`. -/
def classify_volatility_state (current_atr baseline_atr threshold_pct : ℚ) :
    VolClassification :=
  if baseline_atr ≤ 0 then ⟨"STABLE"⟩
  else
    let pct_change := (current_atr - baseline_atr) / baseline_atr * 100
    if pct_change > threshold_pct then ⟨"EXPANDING"⟩
    else if pct_change < -threshold_pct then ⟨"CONTRACTING"⟩
    else ⟨"STABLE"⟩

/-! ## news_scorer.score_tech_news -/

def POSITIVE_KEYWORDS : List String :=
  ["growth", "demand", "beats", "rally", "soar", "surge",
   "upgrade", "strong", "record", "bullish", "profit",
   "innovation", "breakthrough", "high", "jump"]

def NEGATIVE_KEYWORDS : List String :=
  ["slowdown", "risk", "regulation", "crash", "slump",
   "downgrade", "weak", "miss", "volatility", "concern",
   "inflation", "drop", "bearish", "loss", "decline", "warns"]

/-- Result dict of `score_tech_news`. -/
structure NewsResult where
  news_score : ℚ
  headline_count : ℕ
deriving DecidableEq

/-- Net score contribution of one headline: +5 per matching positive keyword,
-5 per matching negative keyword (news_scorer.py lines 54-64). -/
def headlineDelta (headline : String) : ℚ :=
  let text := headline.toLower
  5 * ((POSITIVE_KEYWORDS.filter (fun w => substrIn w text)).length : ℚ)
    - 5 * ((NEGATIVE_KEYWORDS.filter (fun w => substrIn w text)).length : ℚ)

/-- `news_scorer.score_tech_news` (lines 14-72). -/
def score_tech_news (headlines : List String) : NewsResult :=
  if headlines.isEmpty then ⟨50, 0⟩
  else
    let current_score := 50 + (headlines.map headlineDelta).sum
    ⟨max 0 (min 100 current_score), headlines.length⟩

/-! ## sector_confidence.compute_sector_confidence -/

/-- Result dict of `compute_sector_confidence`. -/
structure ConfidenceResult where
  sector_confidence : ℤ
deriving DecidableEq

/-- `sector_confidence.compute_sector_confidence` (sector_confidence.py
lines 1-46): news score adjusted by the volatility regime, clamped to
[0,100] and truncated to an int. -/
def compute_sector_confidence (volatility_state : String) (news_score : ℚ) :
    ConfidenceResult :=
  let base_score := news_score
  let vol_adj : ℚ :=
    if volatility_state = "EXPANDING" then -20
    else if volatility_state = "CONTRACTING" then 10
    else if volatility_state = "STABLE" then 0
    else -10
  let raw_confidence := base_score + vol_adj
  ⟨Rat.floor (max 0 (min 100 raw_confidence))⟩

/-! ## decision_engine.determine_market_posture -/

/-- The vitals-distribution dict passed to `determine_market_posture`; keys
read with `.get(key, 0)`. -/
structure VitalsSummaryIn where
  healthy : Option ℤ
  weak : Option ℤ
  unhealthy : Option ℤ
deriving DecidableEq

/-- `MarketPostureReport` (decision_engine.py lines 181-186 / 223-228). -/
structure PostureReport where
  market_posture : String
  risk_level : String
  confidence : ℚ
  reasons : List String
deriving DecidableEq

/-- `decision_engine.determine_market_posture` (lines 160-228). -/
def determine_market_posture (volatility_state : String)
    (confidence_score : ℚ) (news_score : ℚ)
    (vitals_summary : VitalsSummaryIn) : PostureReport :=
  let healthy_count := vitals_summary.healthy.getD 0
  let unhealthy_count := vitals_summary.unhealthy.getD 0
  if unhealthy_count > healthy_count then
    { market_posture := "RISK_OFF"
      risk_level := "HIGH"
      confidence := confidence_score
      reasons := ["Portfolio unhealthy (" ++ toString unhealthy_count ++ " > "
        ++ toString healthy_count ++ "). Protecting capital."] }
  else
    let volLine := "Volatility is " ++ volatility_state ++ " (Conf: "
      ++ toString confidence_score ++ ")"
    let result : String × String × String :=
      if volatility_state = "EXPANDING" then
        if confidence_score < 50 then
          ("DEFENSIVE", "HIGH", "High uncertainty with weak sector confidence.")
        else
          ("NEUTRAL", "HIGH", "High volatility but sector confidence holds.")
      else if volatility_state = "CONTRACTING" then
        if confidence_score > 70 then
          ("AGGRESSIVE", "LOW", "Volatility cooling + High confidence -> Trend following.")
        else
          ("NEUTRAL", "LOW", "Volatility cooling but confidence insufficient for aggression.")
      else if volatility_state = "STABLE" then
        if confidence_score > 65 then
          ("OPPORTUNITY", "MEDIUM", "Stable market with strong signals.")
        else
          ("NEUTRAL", "MEDIUM", "Stable market, waiting for stronger signals.")
      else
        ("NEUTRAL", "MEDIUM", "Market state unknown.")
    { market_posture := result.1
      risk_level := result.2.1
      confidence := confidence_score
      reasons := [volLine, result.2.2] }

/-! ## capital_lock_in.detect_capital_lock_in -/

/-- The portfolio-state dict; keys read with `.get`. -/
structure PyPortfolio where
  total_capital : Option ℚ
  cash : Option ℚ
deriving DecidableEq

/-- A sector heatmap: insertion-ordered association list of
sector name → heat score, with `.get`-style lookup. -/
def Heatmap := List (String × ℚ)

/-- `heatmap.get(sector, default)`. -/
def hmGet (hm : Heatmap) (sector : String) (default : ℚ) : ℚ :=
  match hm.find? (fun p => p.1 = sector) with
  | some p => p.2
  | none => default

/-- An analyzed position: the original dict (`pos.copy()`) updated with the
`compute_vitals` result (decision_engine.py lines 281-283).  After the
update the `symbol`, `vitals_score`, `health` and `flags` keys are always
present (the vitals result provides them in both of its branches). -/
structure AnalyzedPosition where
  orig : PyPosition
  symbol : String
  vitals_score : ℚ
  health : String
  suggested_action : String
  flags : List String
deriving DecidableEq

/-- One entry of the `dead_positions` list (capital_lock_in.py lines 56-61). -/
structure DeadPosition where
  symbol : String
  sector : String
  vitals_score : ℚ
  capital_allocated : ℚ
deriving DecidableEq

/-- Output dict of `detect_capital_lock_in` (`summary`, a prose rendering of
the same fields, is omitted; `lock_in_ratio` is named `lock_in_fraction`
here). -/
structure LockInReport where
  dead_capital : ℚ
  dead_positions : List DeadPosition
  lock_in_fraction : ℚ
  hot_sectors : List String
  pressure_score : ℚ
  reallocation_alert : Bool
deriving DecidableEq

/-- `capital_lock_in.detect_capital_lock_in` (capital_lock_in.py lines 1-130).
Dead capital: `vitals_score < 50` and sector heat (default 50) `< 40`. -/
def detect_capital_lock_in (portfolio : PyPortfolio)
    (positions : List AnalyzedPosition) (sector_heatmap : Heatmap) :
    LockInReport :=
  let total_capital := portfolio.total_capital.getD 1
  let cash := portfolio.cash.getD 0
  let deadOf := fun (pos : AnalyzedPosition) =>
    let sector := pos.orig.sector.getD "UNKNOWN"
    let sector_heat := hmGet sector_heatmap sector 50
    pos.vitals_score < 50 ∧ sector_heat < 40
  let deadList := positions.filter (fun pos => decide (deadOf pos))
  let dead_positions := deadList.map (fun pos =>
    { symbol := pos.symbol
      sector := pos.orig.sector.getD "UNKNOWN"
      vitals_score := pos.vitals_score
      capital_allocated := pos.orig.capital_allocated.getD 0 : DeadPosition })
  let dead_capital := (deadList.map (fun pos => pos.orig.capital_allocated.getD 0)).sum
  let safe_total_cap := max total_capital 1
  let lock_in_fraction := dead_capital / safe_total_cap
  let hot_sectors := (sector_heatmap.filter (fun p => 70 ≤ p.2)).map Prod.fst
  let cash_fraction := cash / safe_total_cap
  let pressure_score :=
    roundToDec 2 (max 0 (lock_in_fraction * 100 + (hot_sectors.length : ℚ) * 20
      - cash_fraction * 50))
  { dead_capital := roundToDec 2 dead_capital
    dead_positions := dead_positions
    lock_in_fraction := roundToDec 4 lock_in_fraction
    hot_sectors := hot_sectors
    pressure_score := pressure_score
    reallocation_alert := pressure_score > 50 }

/-! ## concentration_guard -/

/-- The two keys of a position dict that `compute_sector_exposure` reads. -/
structure SectorCap where
  sector : Option String
  capital_allocated : Option ℚ
deriving DecidableEq

/-- Python dict upsert `m[k] = m.get(k, 0) + v` on an insertion-ordered
association list: add to the existing key or append a new one. -/
def alAdd (l : List (String × ℚ)) (k : String) (v : ℚ) : List (String × ℚ) :=
  match l with
  | [] => [(k, v)]
  | (k', v') :: rest =>
    if k' = k then (k', v' + v) :: rest else (k', v') :: alAdd rest k v

/-- Sector normalisation of `compute_sector_exposure`
(concentration_guard.py lines 144-146): `.strip().upper()`, empty → UNKNOWN. -/
def normalizeSector (sector : Option String) : String :=
  let s := (sector.getD "").trim.toUpper
  if s = "" then "UNKNOWN" else s

/-- The `sector_capital` aggregation loop (concentration_guard.py
lines 140-154), with the accumulated association list made explicit:
positions with non-positive capital are skipped. -/
def aggregateGo (acc : List (String × ℚ)) : List SectorCap → List (String × ℚ)
  | [] => acc
  | position :: rest =>
    let sector := normalizeSector position.sector
    let capital := position.capital_allocated.getD 0
    aggregateGo (if capital ≤ 0 then acc else alAdd acc sector capital) rest

def aggregateSectorCapital (positions : List SectorCap) : List (String × ℚ) :=
  aggregateGo [] positions

/-- `concentration_guard.compute_sector_exposure` (lines 97-164): empty
result when `total_capital ≤ 0` or no positions; fractions rounded to 4
decimals. -/
def compute_sector_exposure (positions : List SectorCap) (total_capital : ℚ) :
    List (String × ℚ) :=
  if total_capital ≤ 0 then []
  else if positions.isEmpty then []
  else
    (aggregateSectorCapital positions).map
      (fun p => (p.1, roundToDec 4 (p.2 / total_capital)))

/-- `ConcentrationWarning` (concentration_guard.py lines 50-65). -/
structure ConcWarning where
  is_concentrated : Bool
  dominant_sector : Option String
  exposure : ℚ
  threshold : ℚ
  severity : String
deriving DecidableEq

/-- The `thresholds` parameter dict of `evaluate_concentration_risk`. -/
structure Thresholds where
  soft_limit : Option ℚ
  warning_limit : Option ℚ
deriving DecidableEq

/-- Python tuple comparison `(exposure, name) < (exposure, name)` used as the
`max` key in `evaluate_concentration_risk`. -/
def exposureKeyLt (a b : String × ℚ) : Bool :=
  a.2 < b.2 ∨ (a.2 = b.2 ∧ a.1 < b.1)

/-- `max(exposure_map, key=lambda k: (exposure_map[k], k))`: left fold keeping
the current maximum, replacing it only on a strictly greater key — Python's
`max` over the insertion-ordered keys. -/
def maxByExposureKey (h : String × ℚ) (t : List (String × ℚ)) : String × ℚ :=
  t.foldl (fun best p => if exposureKeyLt best p then p else best) h

/-- `concentration_guard.evaluate_concentration_risk` (lines 167-243). -/
def evaluate_concentration_risk (exposure_map : List (String × ℚ))
    (thresholds : Option Thresholds) : ConcWarning :=
  let t := thresholds.getD ⟨some 0.70, some 0.60⟩
  let soft_limit := t.soft_limit.getD 0.70
  let warning_limit := t.warning_limit.getD 0.60
  match exposure_map with
  | [] =>
    { is_concentrated := false, dominant_sector := none, exposure := 0
      threshold := soft_limit, severity := "OK" }
  | h :: rest =>
    let dominant := maxByExposureKey h rest
    let max_exposure := dominant.2
    if max_exposure > soft_limit then
      { is_concentrated := true, dominant_sector := some dominant.1
        exposure := max_exposure, threshold := soft_limit
        severity := "SOFT_BREACH" }
    else if max_exposure > warning_limit then
      { is_concentrated := false, dominant_sector := some dominant.1
        exposure := max_exposure, threshold := soft_limit
        severity := "APPROACHING" }
    else
      { is_concentrated := false, dominant_sector := some dominant.1
        exposure := max_exposure, threshold := soft_limit
        severity := "OK" }

/-- `ConcentrationAnalysis` (concentration_guard.py lines 68-77). -/
structure ConcAnalysis where
  exposure_map : List (String × ℚ)
  warning : ConcWarning
deriving DecidableEq

/-- `concentration_guard.analyze_portfolio_concentration` (lines 246-285). -/
def analyze_portfolio_concentration (positions : List SectorCap)
    (total_capital : ℚ) (thresholds : Option Thresholds) : ConcAnalysis :=
  let exposure_map := compute_sector_exposure positions total_capital
  { exposure_map := exposure_map
    warning := evaluate_concentration_risk exposure_map thresholds }

/-! ## opportunity_logic.scan_for_opportunities -/

/-- A candidate dict (`symbol`, `sector`, `projected_efficiency`); the
decision-engine candidate loop reads `symbol` and `sector` with direct
(KeyError-raising) access, so they stay `Option` here. -/
structure PyCandidate where
  symbol : Option String
  sector : Option String
  projected_efficiency : Option ℚ
deriving DecidableEq

/-- Output dict of `scan_for_opportunities` (`summary`/`details`, prose built
from the other fields, is omitted). -/
structure OpportunityReport where
  weakest_held_symbol : String
  weakest_held_score : ℚ
  best_external_symbol : String
  best_external_score : ℚ
  efficiency_gap : ℚ
  better_opportunity_exists : Bool
  confidence : String
  best_held_efficiency_context : ℚ
deriving DecidableEq

/-- Python `min(positions, key=...)`: first minimum under a strict scan. -/
def minByVitals (h : AnalyzedPosition) (t : List AnalyzedPosition) :
    AnalyzedPosition :=
  t.foldl (fun best p => if p.vitals_score < best.vitals_score then p else best) h

/-- Python `max(candidates, key=...)`: first maximum under a strict scan
(`projected_efficiency` read with `.get(key, 0)`). -/
def maxByEfficiency (h : PyCandidate) (t : List PyCandidate) : PyCandidate :=
  t.foldl (fun best p =>
    if best.projected_efficiency.getD 0 < p.projected_efficiency.getD 0
    then p else best) h

/-- `opportunity_logic.scan_for_opportunities` (opportunity_logic.py
lines 20-115).  `top_candidate['symbol']` is a direct dict access and raises
`KeyError` when the winning candidate has no `symbol` key. -/
def scan_for_opportunities (positions : List AnalyzedPosition)
    (candidates : List PyCandidate) (threshold : ℚ) :
    Except String OpportunityReport :=
  let min_vitals : ℚ :=
    match positions with
    | [] => 999
    | h :: t => (minByVitals h t).vitals_score
  let weakest_symbol : String :=
    match positions with
    | [] => "N/A"
    | h :: t => (minByVitals h t).symbol
  let best_held_score : ℚ :=
    match positions with
    | [] => 0
    | h :: t => (t.map (fun p => p.vitals_score)).foldl max h.vitals_score
  let max_external_score : ℚ :=
    match candidates with
    | [] => 0
    | h :: t => (maxByEfficiency h t).projected_efficiency.getD 0
  let efficiency_gap := max_external_score - min_vitals
  let better_opportunity_exists :=
    (¬ positions.isEmpty ∧ ¬ candidates.isEmpty ∧ efficiency_gap > threshold)
    ∨ (positions.isEmpty ∧ ¬ candidates.isEmpty)
  let confidence : String :=
    if ¬ positions.isEmpty ∧ ¬ candidates.isEmpty then
      if efficiency_gap > threshold then
        if efficiency_gap > threshold * 2 then "HIGH" else "MEDIUM"
      else "LOW"
    else if positions.isEmpty ∧ ¬ candidates.isEmpty then "HIGH"
    else "N/A"
  let mkReport := fun (best_external_symbol : String) =>
    { weakest_held_symbol := weakest_symbol
      weakest_held_score := if positions.isEmpty then 0 else min_vitals
      best_external_symbol := best_external_symbol
      best_external_score := max_external_score
      efficiency_gap :=
        if positions.isEmpty then max_external_score
        else roundToDec 1 efficiency_gap
      better_opportunity_exists := better_opportunity_exists
      confidence := confidence
      best_held_efficiency_context := best_held_score : OpportunityReport }
  match candidates with
  | [] => Except.ok (mkReport "N/A")
  | h :: t =>
    match (maxByEfficiency h t).symbol with
    | some s => Except.ok (mkReport s)
    | none => Except.error "KeyError: symbol"

/-! ## Decisions -/

/-- A decision dict (decision_engine.py lines 384-390 / 434-440).  `sector`,
`flags`, `reasons` and `safety_reason` are keys added later in the pipeline
(enrichment, explanation, guardrail blocking), hence `Option`. -/
structure Decision where
  target : String
  type : String
  action : String
  reason : String
  score : ℚ
  sector : Option String
  flags : Option (List String)
  reasons : Option (List String)
  safety_reason : Option String
deriving DecidableEq

/-! ## decision_explainer -/

/-- The `position_data` dict built by `enrich_decisions_with_explanations`
(decision_explainer.py lines 184-191). -/
structure PositionData where
  symbol : String
  vitals_score : ℚ
  sector : String
  flags : List String
  type : String
deriving DecidableEq

/-- The `portfolio_signals` dict (decision_engine.py lines 445-450). -/
structure PortfolioSignals where
  dead_capital_symbols : List String
  hot_sectors : List String
  reallocation_pressure : Bool
  pressure_score : ℚ
deriving DecidableEq

/-- The `risk_signals` dict (decision_engine.py lines 452-457). -/
structure RiskSignals where
  concentration_warning : ConcWarning
  better_opp_exists : Bool
  opp_confidence : String
  market_posture : PostureReport
deriving DecidableEq

/-- Python `{:.0%}` formatting: scale by 100, round half-to-even to zero
decimals, append a percent sign. -/
def fmtPct0 (q : ℚ) : String :=
  toString (pyRoundHalfEven (q * 100)) ++ "%"

/-- Order-preserving deduplication (decision_explainer.py lines 150-156). -/
def dedupKeep : List String → List String → List String
  | _, [] => []
  | seen, r :: rest =>
    if r ∈ seen then dedupKeep seen rest
    else r :: dedupKeep (r :: seen) rest

/-- `decision_explainer.explain_decision` (decision_explainer.py
lines 25-158): pure mapping from already-computed signals to reason
strings, minimum two, deduplicated in first-seen order. -/
def explain_decision (action : String) (position_data : PositionData)
    (portfolio_signals : PortfolioSignals) (risk_signals : RiskSignals) :
    List String :=
  let symbol := position_data.symbol
  let vitals := position_data.vitals_score
  let sector := position_data.sector
  let flags := position_data.flags
  let position_type := position_data.type
  let conc_warning := risk_signals.concentration_warning
  let vitalsReason : String :=
    if vitals ≥ 70 then "Position vitals strong"
    else if vitals ≥ 60 then "Position vitals acceptable"
    else if vitals ≥ 40 then "Position vitals weak"
    else "Position vitals critically low"
  let reasons := [vitalsReason]
  let reasons := reasons ++
    (if symbol ∈ portfolio_signals.dead_capital_symbols then
      ["Identified as dead capital in cold sector"] else [])
  let reasons := reasons ++
    (if risk_signals.better_opp_exists ∧ risk_signals.opp_confidence = "HIGH" then
      ["High-confidence upgrade opportunity available"]
    else if risk_signals.better_opp_exists ∧ risk_signals.opp_confidence = "MEDIUM" then
      ["Medium-confidence opportunity detected"]
    else [])
  let reasons := reasons ++
    (if sector ∈ portfolio_signals.hot_sectors then
      ["Sector " ++ sector ++ " shows strong momentum"] else [])
  let reasons := reasons ++
    (if conc_warning.is_concentrated ∧ conc_warning.dominant_sector = some sector then
      ["Sector " ++ sector ++ " over-concentrated at " ++ fmtPct0 conc_warning.exposure]
    else [])
  let reasons := reasons ++
    (if conc_warning.severity = "APPROACHING" ∧ conc_warning.dominant_sector = some sector then
      ["Sector " ++ sector ++ " approaching concentration limit"] else [])
  let reasons := reasons ++
    (if portfolio_signals.reallocation_pressure then
      ["Portfolio requires capital reallocation"] else [])
  let reasons := reasons ++ (if "STAGNANT" ∈ flags then
    ["Position stagnant for extended period"] else [])
  let reasons := reasons ++ (if "LOW_VOLATILITY" ∈ flags then
    ["Low volatility detected"] else [])
  let reasons := reasons ++ (if "HIGH_VOLATILITY" ∈ flags then
    ["High volatility detected"] else [])
  let reasons := reasons ++
    (if action ∈ ["FREE_CAPITAL", "REDUCE_AGGRESSIVE", "REDUCE"]
        ∧ ¬ reasons.any (fun r =>
            substrIn "capital" r.toLower || substrIn "vitals" r.toLower) then
      ["Risk mitigation required"] else [])
  let reasons := reasons ++
    (if action ∈ ["ALLOCATE_HIGH", "ALLOCATE", "ALLOCATE_CAPPED"]
        ∧ position_type = "CANDIDATE"
        ∧ ¬ reasons.any (fun r =>
            substrIn "sector" r.toLower || substrIn "opportunity" r.toLower) then
      ["Positive risk/reward profile"] else [])
  let reasons := reasons ++
    (if reasons.length < 2 then
      (if position_type = "POSITION" then
        ["Action " ++ action ++ " based on current position state"]
      else
        ["Action " ++ action ++ " based on market assessment"])
    else [])
  dedupKeep [] reasons

/-- `decision_explainer.enrich_decisions_with_explanations`
(decision_explainer.py lines 161-206): attach a `reasons` key; everything
else is copied unchanged. -/
def enrich_decisions_with_explanations (decisions : List Decision)
    (portfolio_signals : PortfolioSignals) (risk_signals : RiskSignals) :
    List Decision :=
  decisions.map (fun decision =>
    let position_data : PositionData :=
      { symbol := decision.target
        vitals_score := decision.score
        sector := decision.sector.getD "UNKNOWN"
        flags := decision.flags.getD []
        type := decision.type }
    let rs := explain_decision decision.action position_data
      portfolio_signals risk_signals
    { decision with reasons := some rs })

/-! ## risk_guardrails.apply_risk_guardrails -/

/-- The `risk_context` dict; every key read with `.get`. -/
structure RiskContext where
  concentration : Option ConcWarning
  cash_available : Option ℚ
  minimum_reserve : Option ℚ
  volatility_state : Option String
deriving DecidableEq

/-- A `risk_context` dict with no keys — Python's falsy `{}`, which triggers
the same block-all branch as `None`. -/
def rcIsEmptyDict (rc : RiskContext) : Bool :=
  rc.concentration.isNone && rc.cash_available.isNone
    && rc.minimum_reserve.isNone && rc.volatility_state.isNone

/-- `blocked_decision = decision.copy(); blocked_decision["safety_reason"] = r`
(risk_guardrails.py lines 134-135). -/
def setSafetyReason (decision : Decision) (r : String) : Decision :=
  { decision with safety_reason := some r }

def increasing_actions : List String :=
  ["ALLOCATE", "ALLOCATE_HIGH", "ALLOCATE_AGGRESSIVE",
   "SCALE_UP", "DOUBLE_DOWN", "ADD_POSITION"]

def aggressive_allocs : List String :=
  ["ALLOCATE_HIGH", "ALLOCATE_AGGRESSIVE", "SCALE_UP"]

def capital_actions : List String :=
  ["ALLOCATE", "ALLOCATE_HIGH", "ALLOCATE_AGGRESSIVE",
   "ALLOCATE_CAPPED", "ALLOCATE_CAUTIOUS",
   "SCALE_UP", "ADD_POSITION", "DOUBLE_DOWN"]

def aggressive_actions : List String :=
  ["ALLOCATE_AGGRESSIVE", "SCALE_UP", "DOUBLE_DOWN"]

/-- The per-decision rule chain of `apply_risk_guardrails`
(risk_guardrails.py lines 88-128): three guards, each may overwrite
`block_reason` (the last applicable rule wins). -/
def computeBlockReason (rc : RiskContext) (decision : Decision) :
    Option String :=
  let action_type := decision.action
  let sector := decision.sector.getD "UNKNOWN"
  let is_concentrated : Bool :=
    match rc.concentration with
    | none => false
    | some cw => cw.is_concentrated
  let dominant_sector : Option String :=
    match rc.concentration with
    | none => some "UNKNOWN"
    | some cw => cw.dominant_sector
  let severity : String :=
    match rc.concentration with
    | none => "NONE"
    | some cw => cw.severity
  let cash_available := rc.cash_available.getD 0
  let minimum_reserve := rc.minimum_reserve.getD 50000
  let volatility_state := rc.volatility_state.getD "STABLE"
  let br : Option String :=
    if is_concentrated ∧ dominant_sector = some sector
        ∧ action_type ∈ increasing_actions then
      some "Sector concentration breach"
    else none
  let br : Option String :=
    if severity = "APPROACHING" ∧ dominant_sector = some sector
        ∧ action_type ∈ aggressive_allocs then
      some "Sector concentration breach"
    else br
  let br : Option String :=
    if cash_available < minimum_reserve ∧ action_type ∈ capital_actions then
      some "Insufficient cash reserve"
    else br
  let br : Option String :=
    if volatility_state = "EXPANDING" ∧ action_type ∈ aggressive_actions then
      some "Aggressive action blocked during expanding volatility"
    else br
  br

/-- The allow/block loop of `apply_risk_guardrails` (risk_guardrails.py
lines 85-138), preserving input order within each of the two output lists. -/
def guardLoop (rc : RiskContext) : List Decision → List Decision × List Decision
  | [] => ([], [])
  | decision :: rest =>
    let res := guardLoop rc rest
    match computeBlockReason rc decision with
    | some r => (res.1, setSafetyReason decision r :: res.2)
    | none => (decision :: res.1, res.2)

/-- Output dict of `apply_risk_guardrails`. -/
structure GuardrailResults where
  allowed_actions : List Decision
  blocked_actions : List Decision
deriving DecidableEq

/-- `risk_guardrails.apply_risk_guardrails` (risk_guardrails.py
lines 23-143): defensive validation, then the three safety rules. -/
def apply_risk_guardrails (proposed_decisions : List Decision)
    (risk_context : Option RiskContext) : GuardrailResults :=
  if proposed_decisions.isEmpty then ⟨[], []⟩
  else
    let blockAll : GuardrailResults :=
      ⟨[], proposed_decisions.map
        (fun d => setSafetyReason d "Safety check failed: missing risk context")⟩
    match risk_context with
    | none => blockAll
    | some rc =>
      if rcIsEmptyDict rc then blockAll
      else
        let lp := guardLoop rc proposed_decisions
        ⟨lp.1, lp.2⟩

/-! ## decision_engine.run_decision_engine -/

/-- Left-to-right effectful map over `Except`, mirroring a Python `for` loop
that can raise on each element. -/
def exMapM {α β : Type} (f : α → Except String β) :
    List α → Except String (List β)
  | [] => Except.ok []
  | a :: rest =>
    match f a with
    | Except.error e => Except.error e
    | Except.ok b =>
      match exMapM f rest with
      | Except.error e => Except.error e
      | Except.ok bs => Except.ok (b :: bs)

/-- A news headline as consumed by decision_engine.py line 259: either a
plain string or a dict whose `title` key is read with a direct
(KeyError-raising) access. -/
inductive Headline where
  | str (title : String)
  | dict (title : Option String)
deriving DecidableEq

/-- The `market_context` dict.  `none` at the call site models both Python
`None` and a falsy empty dict. -/
structure MarketContext where
  candles : List Candle
  news : List Headline
  override_confidence : Option ℚ
deriving DecidableEq

/-- Step 1A of `run_decision_engine` (lines 243-254): volatility state from
the candles, `STABLE` by default.  The computed ATR is its own mock
baseline, and a falsy (zero or missing) ATR leaves the default. -/
def computeVolState (market_context : Option MarketContext) : String :=
  match market_context with
  | none => "STABLE"
  | some mc =>
    if mc.candles.isEmpty then "STABLE"
    else
      match (compute_atr mc.candles 14).atr with
      | none => "STABLE"
      | some a =>
        if a = 0 then "STABLE"
        else (classify_volatility_state a a 10).volatility_state

/-- `h["title"] if isinstance(h, dict) else h` (line 259). -/
def headlineTitle : Headline → Except String String
  | .str s => Except.ok s
  | .dict (some t) => Except.ok t
  | .dict none => Except.error "KeyError: title"

/-- Step 1B of `run_decision_engine` (lines 244, 257-260): news score,
neutral 50 by default. -/
def computeNewsRes (market_context : Option MarketContext) :
    Except String NewsResult :=
  match market_context with
  | none => Except.ok ⟨50, 0⟩
  | some mc =>
    if mc.news.isEmpty then Except.ok ⟨50, 0⟩
    else
      match exMapM headlineTitle mc.news with
      | Except.error e => Except.error e
      | Except.ok headline_strs => Except.ok (score_tech_news headline_strs)

/-- Step 1C of `run_decision_engine` (lines 262-267): an
`override_confidence` key in a truthy market context bypasses the computed
sector confidence. -/
def computeConfidence (market_context : Option MarketContext)
    (vol_state : String) (news_score : ℚ) : ℚ :=
  match market_context with
  | some mc =>
    match mc.override_confidence with
    | some c => c
    | none => ((compute_sector_confidence vol_state news_score).sector_confidence : ℚ)
  | none => ((compute_sector_confidence vol_state news_score).sector_confidence : ℚ)

/-- Step 2 of `run_decision_engine` (lines 275-283): `pos.copy()` updated
with the `compute_vitals` result. -/
def analyzePosition (pos : PyPosition) : AnalyzedPosition :=
  let v := compute_vitals pos
  { orig := pos, symbol := v.symbol, vitals_score := v.vitals_score
    health := v.health, suggested_action := v.suggested_action
    flags := v.flags }

/-- The `vitals_counts` tally dict (lines 273-279). -/
structure VitalsCounts where
  healthy : ℕ
  weak : ℕ
  unhealthy : ℕ
deriving DecidableEq

def tallyVitals (analyzed : List AnalyzedPosition) : VitalsCounts :=
  analyzed.foldl (fun c a =>
    let h := a.health.toLower
    if h = "healthy" then { c with healthy := c.healthy + 1 }
    else if h = "weak" then { c with weak := c.weak + 1 }
    else if h = "unhealthy" then { c with unhealthy := c.unhealthy + 1 }
    else c) ⟨0, 0, 0⟩

/-- Step 7A of `run_decision_engine` (lines 337-390): the per-position
priority chain, then the RISK_OFF softening override.  Lines 343-346 (the
STAGNANT recomputation for positions without a `flags` key) are
unreachable: `compute_vitals` always supplies `flags`. -/
def positionDecision (posture_report : PostureReport)
    (conc_warning : ConcWarning) (dead_capital_symbols : List String)
    (reallocation_pressure : Bool) (better_opp_exists : Bool)
    (opp_confidence : String) (pos : AnalyzedPosition) : Decision :=
  let symbol := pos.symbol
  let vitals := pos.vitals_score
  let sector := pos.orig.sector.getD "UNKNOWN"
  let flags := pos.flags
  let is_concentrated_sector :=
    conc_warning.is_concentrated ∧ conc_warning.dominant_sector = some sector
  let ar : String × String :=
    if symbol ∈ dead_capital_symbols ∧ reallocation_pressure then
      if better_opp_exists ∧ opp_confidence = "HIGH" then
        ("FREE_CAPITAL", "Dead capital (" ++ toString vitals
          ++ ") in cold sector. High-confidence upgrade available.")
      else
        ("REDUCE_AGGRESSIVE", "Dead capital (" ++ toString vitals
          ++ ") in cold sector dragging portfolio.")
    else if is_concentrated_sector then
      if vitals < 60 then
        ("TRIM_RISK", "Sector " ++ sector ++ " over-concentrated ("
          ++ fmtPct0 conc_warning.exposure ++ "). Trimming weak position.")
      else
        ("HOLD_CAPPED", "Sector " ++ sector
          ++ " over-concentrated. No further allocation allowed.")
    else if vitals < 40 then
      ("REDUCE", "Vitals critically low (" ++ toString vitals
        ++ "). Reduce exposure.")
    else if "STAGNANT" ∈ flags then
      ("REVIEW", "Position is profitable but stagnant (>20 days, <2% return).")
    else if vitals < 60 then
      ("HOLD", "Weak vitals (" ++ toString vitals ++ "). Monitoring.")
    else
      ("MAINTAIN", "Strong vitals (" ++ toString vitals ++ "). Efficient.")
  let ar : String × String :=
    if posture_report.market_posture = "RISK_OFF"
        ∧ ar.1 ∈ ["HOLD", "REVIEW", "MAINTAIN"] then
      ("REDUCE_RISK", "RISK_OFF posture triggered. Reducing exposure.")
    else ar
  { target := symbol, type := "POSITION", action := ar.1, reason := ar.2
    score := vitals, sector := none, flags := none, reasons := none
    safety_reason := none }

/-- Step 7B of `run_decision_engine` (lines 393-440): the per-candidate
chain.  `cand["symbol"]`, `cand["sector"]` and (in the hot-sector,
no-pressure branch) `portfolio_state["cash"]` are direct dict accesses and
raise `KeyError` on missing keys. -/
def candidateDecision (portfolio_state : PyPortfolio)
    (posture_report : PostureReport) (conc_warning : ConcWarning)
    (hot_sectors : List String) (reallocation_pressure : Bool)
    (active_candidates : List PyCandidate) (cand : PyCandidate) :
    Except String Decision :=
  match cand.symbol with
  | none => Except.error "KeyError: symbol"
  | some symbol =>
    match cand.sector with
    | none => Except.error "KeyError: sector"
    | some sector =>
      let eff_score := cand.projected_efficiency.getD 0
      let is_ignored_due_to_posture := ¬ active_candidates.contains cand
      let is_sector_approaching := conc_warning.severity = "APPROACHING"
        ∧ conc_warning.dominant_sector = some sector
      let is_sector_breached := conc_warning.is_concentrated
        ∧ conc_warning.dominant_sector = some sector
      let mkDecision := fun (ar : String × String) =>
        ({ target := symbol, type := "CANDIDATE", action := ar.1
           reason := ar.2, score := eff_score, sector := none, flags := none
           reasons := none, safety_reason := none } : Decision)
      if is_ignored_due_to_posture then
        Except.ok (mkDecision ("BLOCK_POSTURE", "Market Posture is "
          ++ posture_report.market_posture ++ ". inflows blocked."))
      else if is_sector_breached then
        Except.ok (mkDecision ("BLOCK_RISK", "Cannot allocate. Sector "
          ++ sector ++ " already over-concentrated ("
          ++ fmtPct0 conc_warning.exposure ++ ")."))
      else if sector ∈ hot_sectors then
        if reallocation_pressure then
          if is_sector_approaching then
            Except.ok (mkDecision ("ALLOCATE_CAPPED", "Hot sector (" ++ sector
              ++ "), but nearing concentration limit."))
          else
            Except.ok (mkDecision ("ALLOCATE_HIGH", "Hot sector (" ++ sector
              ++ "). Deploying freed capital."))
        else
          match portfolio_state.cash with
          | none => Except.error "KeyError: cash"
          | some cash =>
            if cash > 100000 then
              if is_sector_approaching then
                Except.ok (mkDecision ("ALLOCATE_CAUTIOUS",
                  "Hot sector, but nearing concentration limit."))
              else
                Except.ok (mkDecision ("ALLOCATE",
                  "Hot sector. Sufficient liquidity."))
            else
              Except.ok (mkDecision ("WATCHLIST",
                "Hot sector, but limited capital."))
      else
        Except.ok (mkDecision ("IGNORE", "Sector " ++ sector
          ++ " not attractive."))

/-- `next((c for c in candidates if c["symbol"] == target), None)`
(line 466): first match, with a KeyError-raising `symbol` access. -/
def findCandidateBySymbol : List PyCandidate → String →
    Except String (Option PyCandidate)
  | [], _ => Except.ok none
  | c :: rest, target =>
    match c.symbol with
    | none => Except.error "KeyError: symbol"
    | some s =>
      if s = target then Except.ok (some c)
      else findCandidateBySymbol rest target

/-- Step 8's metadata pass (lines 459-468): attach `sector` (and `flags` for
positions) from the matching analyzed position or candidate. -/
def attachSectorFlags (analyzed_positions : List AnalyzedPosition)
    (candidates : List PyCandidate) (decision : Decision) :
    Except String Decision :=
  if decision.type = "POSITION" then
    match analyzed_positions.find? (fun p => p.symbol == decision.target) with
    | some p => Except.ok { decision with
        sector := some (p.orig.sector.getD "UNKNOWN")
        flags := some p.flags }
    | none => Except.ok decision
  else if decision.type = "CANDIDATE" then
    match findCandidateBySymbol candidates decision.target with
    | Except.error e => Except.error e
    | Except.ok (some c) =>
      Except.ok { decision with sector := some (c.sector.getD "UNKNOWN") }
    | Except.ok none => Except.ok decision
  else Except.ok decision

/-- The returned report of `run_decision_engine` (lines 504-515).
`pm_summary`, `superiority_analysis` (randomised presentation) and the
echoed `execution_context` are omitted. -/
structure RunOutput where
  market_posture : PostureReport
  decisions : List Decision
  blocked_by_safety : List Decision
  concentration_risk : ConcWarning
  reallocation_trigger : Bool
  opportunity_scan : OpportunityReport
  pressure_score : ℚ
deriving DecidableEq

/-- `decision_engine.run_decision_engine` (decision_engine.py
lines 230-515), with the failure points surfaced as `Except.error`:
`KeyError` on direct dict accesses, and the `ZeroDivisionError` of the
unconditional `generate_pm_summary` call (line 499) when
`portfolio_state.get("total_capital", 1)` is zero (lines 24-25). -/
def run_decision_engine (portfolio_state : PyPortfolio)
    (positions : List PyPosition) (sector_heatmap : Heatmap)
    (candidates : List PyCandidate) (market_context : Option MarketContext) :
    Except String RunOutput :=
  let vol_state := computeVolState market_context
  match computeNewsRes market_context with
  | .error e => .error e
  | .ok news_res =>
    let confidence_score := computeConfidence market_context vol_state news_res.news_score
    let analyzed_positions := positions.map analyzePosition
    let vitals_counts := tallyVitals analyzed_positions
    let posture_report := determine_market_posture vol_state confidence_score
      news_res.news_score
      ⟨some (vitals_counts.healthy : ℤ), some (vitals_counts.weak : ℤ),
        some (vitals_counts.unhealthy : ℤ)⟩
    let lock_in_report := detect_capital_lock_in portfolio_state
      analyzed_positions sector_heatmap
    let reallocation_pressure := lock_in_report.reallocation_alert
    let hot_sectors := lock_in_report.hot_sectors
    let dead_capital_symbols := lock_in_report.dead_positions.map
      (fun d => d.symbol)
    let total_capital := portfolio_state.total_capital.getD 1
    let concentration_report := analyze_portfolio_concentration
      (analyzed_positions.map (fun a => ⟨a.orig.sector, a.orig.capital_allocated⟩))
      total_capital none
    let conc_warning := concentration_report.warning
    let active_candidates :=
      if posture_report.market_posture ∈ ["DEFENSIVE", "RISK_OFF"] then []
      else candidates
    match scan_for_opportunities analyzed_positions active_candidates 15 with
    | .error e => .error e
    | .ok opportunity_report =>
      let better_opp_exists := opportunity_report.better_opportunity_exists
      let opp_confidence := opportunity_report.confidence
      let posDecisions := analyzed_positions.map
        (positionDecision posture_report conc_warning dead_capital_symbols
          reallocation_pressure better_opp_exists opp_confidence)
      match exMapM (candidateDecision portfolio_state posture_report
          conc_warning hot_sectors reallocation_pressure active_candidates)
          candidates with
      | .error e => .error e
      | .ok candDecisions =>
        let decisions := posDecisions ++ candDecisions
        let portfolio_signals : PortfolioSignals :=
          { dead_capital_symbols := dead_capital_symbols
            hot_sectors := hot_sectors
            reallocation_pressure := reallocation_pressure
            pressure_score := lock_in_report.pressure_score }
        let risk_signals : RiskSignals :=
          { concentration_warning := conc_warning
            better_opp_exists := better_opp_exists
            opp_confidence := opp_confidence
            market_posture := posture_report }
        match exMapM (attachSectorFlags analyzed_positions candidates)
            decisions with
        | .error e => .error e
        | .ok decorated =>
          let enriched_decisions := enrich_decisions_with_explanations
            decorated portfolio_signals risk_signals
          let risk_context : RiskContext :=
            { concentration := some conc_warning
              cash_available := some (portfolio_state.cash.getD 0)
              minimum_reserve := some 50000
              volatility_state := some vol_state }
          let guardrail_results := apply_risk_guardrails enriched_decisions
            (some risk_context)
          -- generate_pm_summary (line 499) divides cash by
          -- portfolio_state.get("total_capital", 1) with no guard
          if total_capital = 0 then
            .error "ZeroDivisionError: division by zero"
          else
            .ok { market_posture := posture_report
                  decisions := guardrail_results.allowed_actions
                  blocked_by_safety := guardrail_results.blocked_actions
                  concentration_risk := conc_warning
                  reallocation_trigger := reallocation_pressure
                  opportunity_scan := opportunity_report
                  pressure_score := lock_in_report.pressure_score }

/-! ## Claims about the leaf components -/

/-- C2: `classify_volatility_state(current_atr, baseline_atr, threshold_pct)`
computes `pct_change = (current-baseline)/baseline*100` and returns
`EXPANDING` when `pct_change > threshold_pct`, `CONTRACTING` when
`pct_change < -threshold_pct`, otherwise `STABLE`; and whenever
`baseline_atr ≤ 0` (in particular for a zero baseline) it fail-safes to
`STABLE` for every `current_atr`. -/
theorem classify_volatility_state_spec
    (current_atr baseline_atr threshold_pct : ℚ) :
    (baseline_atr ≤ 0 →
      (classify_volatility_state current_atr baseline_atr
        threshold_pct).volatility_state = "STABLE") ∧
    (0 < baseline_atr →
      (classify_volatility_state current_atr baseline_atr
        threshold_pct).volatility_state =
        (if (current_atr - baseline_atr) / baseline_atr * 100 > threshold_pct
          then "EXPANDING"
        else if (current_atr - baseline_atr) / baseline_atr * 100 < -threshold_pct
          then "CONTRACTING"
        else "STABLE")) := by
  constructor
  · intro h
    simp only [classify_volatility_state, if_pos h]
  · intro h
    simp only [classify_volatility_state, if_neg (not_le.mpr h)]
    split_ifs <;> rfl

/-- Witness for C2: the baseline-zero fail-safe at a concrete input. -/
theorem classify_volatility_state_spec_witness :
    (0:ℚ) ≤ 0 ∧ (classify_volatility_state 5 0 10).volatility_state = "STABLE" :=
  ⟨le_refl 0, (classify_volatility_state_spec 5 0 10).1 (le_refl 0)⟩

/-- C4: whenever the vitals summary has `unhealthy_count > healthy_count`,
`determine_market_posture` returns market posture RISK_OFF and risk level
HIGH with exactly one reason, for every volatility state, confidence score
and news score: the internal-health rule short-circuits. -/
theorem determine_market_posture_risk_off (volatility_state : String)
    (confidence_score news_score : ℚ) (vitals_summary : VitalsSummaryIn)
    (h : vitals_summary.unhealthy.getD 0 > vitals_summary.healthy.getD 0) :
    (determine_market_posture volatility_state confidence_score news_score
      vitals_summary).market_posture = "RISK_OFF" ∧
    (determine_market_posture volatility_state confidence_score news_score
      vitals_summary).risk_level = "HIGH" ∧
    (determine_market_posture volatility_state confidence_score news_score
      vitals_summary).reasons.length = 1 := by
  simp [determine_market_posture, if_pos h]

/-- Witness for C4: two unhealthy positions against zero healthy ones. -/
theorem determine_market_posture_risk_off_witness :
    (⟨some 0, some 0, some 2⟩ : VitalsSummaryIn).unhealthy.getD 0 >
      (⟨some 0, some 0, some 2⟩ : VitalsSummaryIn).healthy.getD 0 ∧
    (determine_market_posture "STABLE" 50 50
      ⟨some 0, some 0, some 2⟩).market_posture = "RISK_OFF" ∧
    (determine_market_posture "STABLE" 50 50
      ⟨some 0, some 0, some 2⟩).risk_level = "HIGH" ∧
    (determine_market_posture "STABLE" 50 50
      ⟨some 0, some 0, some 2⟩).reasons.length = 1 :=
  ⟨by decide,
    determine_market_posture_risk_off "STABLE" 50 50 ⟨some 0, some 0, some 2⟩
      (by decide)⟩

/-- C6: for every position dict whose `entry_price` (default 0) is
non-positive, `compute_vitals` returns `vitals_score = 0`,
`health = UNHEALTHY` and a flags list containing `DATA_ERROR` — it fails
softly instead of raising (the Lean embedding is a total function). -/
theorem compute_vitals_data_error (position : PyPosition)
    (h : position.entry_price.getD 0 ≤ 0) :
    (compute_vitals position).vitals_score = 0 ∧
    (compute_vitals position).health = "UNHEALTHY" ∧
    "DATA_ERROR" ∈ (compute_vitals position).flags := by
  simp [compute_vitals, if_pos h]

/-- Witness for C6: a position dict with no keys at all. -/
theorem compute_vitals_data_error_witness :
    (⟨none, none, none, none, none, none, none⟩ : PyPosition).entry_price.getD 0 ≤ 0 ∧
    (compute_vitals ⟨none, none, none, none, none, none, none⟩).vitals_score = 0 ∧
    (compute_vitals ⟨none, none, none, none, none, none, none⟩).health = "UNHEALTHY" ∧
    "DATA_ERROR" ∈ (compute_vitals ⟨none, none, none, none, none, none, none⟩).flags :=
  ⟨by decide,
    compute_vitals_data_error ⟨none, none, none, none, none, none, none⟩ (by decide)⟩

/-- The health thresholds of `healthClassification` characterise the label
exactly, for any score within [0,100]. -/
theorem healthClassification_spec (sym : String) (s : ℚ) (fl : List String)
    (hs0 : 0 ≤ s) (hs100 : s ≤ 100) :
    0 ≤ (healthClassification sym s fl).vitals_score ∧
    (healthClassification sym s fl).vitals_score ≤ 100 ∧
    ((healthClassification sym s fl).health = "UNHEALTHY" ↔
      (healthClassification sym s fl).vitals_score < 40) ∧
    ((healthClassification sym s fl).health = "WEAK" ↔
      (40 ≤ (healthClassification sym s fl).vitals_score ∧
        (healthClassification sym s fl).vitals_score < 60)) ∧
    ((healthClassification sym s fl).health = "HEALTHY" ↔
      60 ≤ (healthClassification sym s fl).vitals_score) := by
  unfold healthClassification
  split_ifs with h40 h60
  · exact ⟨hs0, hs100, iff_of_true rfl h40,
      iff_of_false
        (fun hc => absurd hc (by decide : ("UNHEALTHY":String) ≠ "WEAK"))
        (fun hc => absurd h40 (not_lt.mpr hc.1)),
      iff_of_false
        (fun hc => absurd hc (by decide : ("UNHEALTHY":String) ≠ "HEALTHY"))
        (fun hc => absurd h40 (not_lt.mpr (by linarith)))⟩
  · exact ⟨hs0, hs100,
      iff_of_false
        (fun hc => absurd hc (by decide : ("WEAK":String) ≠ "UNHEALTHY"))
        (fun hc => absurd hc (not_lt.mpr (not_lt.mp h40))),
      iff_of_true rfl ⟨not_lt.mp h40, h60⟩,
      iff_of_false
        (fun hc => absurd hc (by decide : ("WEAK":String) ≠ "HEALTHY"))
        (fun hc => absurd h60 (not_lt.mpr hc))⟩
  · exact ⟨hs0, hs100,
      iff_of_false
        (fun hc => absurd hc (by decide : ("HEALTHY":String) ≠ "UNHEALTHY"))
        (fun hc => absurd hc (not_lt.mpr (not_lt.mp h40))),
      iff_of_false
        (fun hc => absurd hc (by decide : ("HEALTHY":String) ≠ "WEAK"))
        (fun hc => absurd hc.2 h60),
      iff_of_true rfl (not_lt.mp h60)⟩

/-- C7: for every position, `compute_vitals` yields a score in [0,100], and
the health label is UNHEALTHY exactly when `score < 40`, WEAK exactly when
`40 ≤ score < 60`, and HEALTHY exactly when `score ≥ 60`. -/
theorem compute_vitals_bounds_and_health (position : PyPosition) :
    0 ≤ (compute_vitals position).vitals_score ∧
    (compute_vitals position).vitals_score ≤ 100 ∧
    ((compute_vitals position).health = "UNHEALTHY" ↔
      (compute_vitals position).vitals_score < 40) ∧
    ((compute_vitals position).health = "WEAK" ↔
      (40 ≤ (compute_vitals position).vitals_score ∧
        (compute_vitals position).vitals_score < 60)) ∧
    ((compute_vitals position).health = "HEALTHY" ↔
      60 ≤ (compute_vitals position).vitals_score) := by
  by_cases h : position.entry_price.getD 0 ≤ 0
  · refine ⟨?_, ?_, ?_, ?_, ?_⟩ <;> simp [compute_vitals, if_pos h]
  · have hrw : compute_vitals position =
        healthClassification (position.symbol.getD "UNKNOWN")
          (roundToDec 2 (max 0 (min 100 (50 +
            (0.5 * ((position.current_price.getD 0 - position.entry_price.getD 0) /
                position.entry_price.getD 0 * 100 / max (position.atr.getD 0) (1/10000))
              + 0.3 * ((position.current_price.getD 0 - position.entry_price.getD 0) /
                position.entry_price.getD 0 * 100 /
                  (max (position.capital_allocated.getD 0) 1 / 100000))
              - 0.2 * ((position.days_held.getD 0 : ℚ) / 10)) * 10))))
          (if (position.current_price.getD 0 - position.entry_price.getD 0) /
                position.entry_price.getD 0 * 100 < 2
              ∧ position.days_held.getD 0 > 20 then ["STAGNANT"] else []) := by
      simp only [compute_vitals, if_neg h]
    rw [hrw]
    exact healthClassification_spec _ _ _
      (roundToDec_nonneg (le_max_left _ _))
      (roundToDec_le_hundred (max_le (by norm_num) (min_le_left _ _)))

/-! ## Claim C3: the guardrail partition -/

theorem setSafetyReason_action (d : Decision) (r : String) :
    (setSafetyReason d r).action = d.action := rfl

theorem setSafetyReason_type (d : Decision) (r : String) :
    (setSafetyReason d r).type = d.type := rfl

theorem computeBlockReason_setSafetyReason (rc : RiskContext) (d : Decision)
    (r : String) :
    computeBlockReason rc (setSafetyReason d r) = computeBlockReason rc d := rfl

theorem guardLoop_allowed (rc : RiskContext) (ds : List Decision) :
    (guardLoop rc ds).1 =
      ds.filter (fun d => (computeBlockReason rc d).isNone) := by
  induction ds with
  | nil => rfl
  | cons d rest ih =>
    simp only [guardLoop, List.filter_cons]
    cases h : computeBlockReason rc d <;> simp [h, ih]

theorem guardLoop_blocked (rc : RiskContext) (ds : List Decision) :
    (guardLoop rc ds).2 =
      (ds.filter (fun d => (computeBlockReason rc d).isSome)).map
        (fun d => setSafetyReason d ((computeBlockReason rc d).getD "")) := by
  induction ds with
  | nil => rfl
  | cons d rest ih =>
    simp only [guardLoop, List.filter_cons]
    cases h : computeBlockReason rc d <;> simp [h, ih]

theorem length_filter_add_length_filter_not {α : Type} (p : α → Bool)
    (l : List α) :
    (l.filter p).length + (l.filter (fun a => ! p a)).length = l.length := by
  induction l with
  | nil => rfl
  | cons a t ih =>
    cases h : p a <;> simp [List.filter_cons, h, ← ih] <;> omega

/-- C3: for every list of proposed decisions and every risk context,
`apply_risk_guardrails` returns a strict partition of its input: the allowed
decisions are input decisions returned unchanged, each blocked decision is
an input decision with only a `safety_reason` field set, the two output
lists together have exactly as many entries as the input, and no decision
appears in both lists. -/
theorem apply_risk_guardrails_partition (proposed_decisions : List Decision)
    (risk_context : Option RiskContext) :
    (∀ d ∈ (apply_risk_guardrails proposed_decisions risk_context).allowed_actions,
      d ∈ proposed_decisions) ∧
    (∀ b ∈ (apply_risk_guardrails proposed_decisions risk_context).blocked_actions,
      ∃ d ∈ proposed_decisions, ∃ r : String, b = setSafetyReason d r) ∧
    (apply_risk_guardrails proposed_decisions risk_context).allowed_actions.length
      + (apply_risk_guardrails proposed_decisions risk_context).blocked_actions.length
      = proposed_decisions.length ∧
    (∀ d : Decision,
      ¬ (d ∈ (apply_risk_guardrails proposed_decisions risk_context).allowed_actions ∧
         d ∈ (apply_risk_guardrails proposed_decisions risk_context).blocked_actions)) := by
  unfold apply_risk_guardrails
  split
  · rename_i hempty
    simp_all [List.isEmpty_iff]
  · split
    · refine ⟨by simp, ?_, by simp, by simp⟩
      intro b hb
      simp only [List.mem_map] at hb
      obtain ⟨d, hd, rfl⟩ := hb
      exact ⟨d, hd, _, rfl⟩
    · rename_i rc
      split
      · refine ⟨by simp, ?_, by simp, by simp⟩
        intro b hb
        simp only [List.mem_map] at hb
        obtain ⟨d, hd, rfl⟩ := hb
        exact ⟨d, hd, _, rfl⟩
      · dsimp only
        refine ⟨?_, ?_, ?_, ?_⟩
        · intro d hd
          rw [guardLoop_allowed] at hd
          exact List.mem_of_mem_filter hd
        · intro b hb
          rw [guardLoop_blocked] at hb
          simp only [List.mem_map, List.mem_filter] at hb
          obtain ⟨d, ⟨hd, _⟩, rfl⟩ := hb
          exact ⟨d, hd, _, rfl⟩
        · rw [guardLoop_allowed, guardLoop_blocked, List.length_map]
          have hsplit := length_filter_add_length_filter_not
            (fun d => (computeBlockReason rc d).isNone) proposed_decisions
          have he : proposed_decisions.filter
                (fun d => (computeBlockReason rc d).isSome)
              = proposed_decisions.filter
                (fun d => ! (computeBlockReason rc d).isNone) :=
            List.filter_congr
              (fun d _ => by cases computeBlockReason rc d <;> rfl)
          rw [he]
          exact hsplit
        · intro d ⟨hal, hbl⟩
          rw [guardLoop_allowed] at hal
          rw [guardLoop_blocked] at hbl
          have h1 : (computeBlockReason rc d).isNone := (List.mem_filter.mp hal).2
          simp only [List.mem_map, List.mem_filter] at hbl
          obtain ⟨d0, ⟨_, hsome⟩, heq⟩ := hbl
          have h2 : computeBlockReason rc d = computeBlockReason rc d0 := by
            rw [← heq, computeBlockReason_setSafetyReason]
          rw [h2] at h1
          rw [Option.isNone_iff_eq_none] at h1
          rw [h1] at hsome
          simp at hsome

/-! ## Claim C8: sector exposure sums -/

theorem alAdd_snd_sum (l : List (String × ℚ)) (k : String) (v : ℚ) :
    ((alAdd l k v).map Prod.snd).sum = (l.map Prod.snd).sum + v := by
  induction l with
  | nil => simp [alAdd]
  | cons p rest ih =>
    by_cases h : p.1 = k
    · simp [alAdd, h]
      ring
    · simp [alAdd, h, ih]
      ring

theorem aggregateGo_snd_sum (positions : List SectorCap) :
    ∀ acc : List (String × ℚ),
      ((aggregateGo acc positions).map Prod.snd).sum =
        (acc.map Prod.snd).sum +
          (positions.map (fun p =>
            if p.capital_allocated.getD 0 ≤ 0 then 0
            else p.capital_allocated.getD 0)).sum := by
  induction positions with
  | nil => intro acc; simp [aggregateGo]
  | cons p rest ih =>
    intro acc
    simp only [aggregateGo, List.map_cons, List.sum_cons]
    by_cases h : p.capital_allocated.getD 0 ≤ 0
    · rw [if_pos h, if_pos h, ih]
      ring
    · rw [if_neg h, if_neg h, ih, alAdd_snd_sum]
      ring

theorem aggregateSectorCapital_snd_sum (positions : List SectorCap) :
    ((aggregateSectorCapital positions).map Prod.snd).sum =
      (positions.map (fun p =>
        if p.capital_allocated.getD 0 ≤ 0 then 0
        else p.capital_allocated.getD 0)).sum := by
  have h := aggregateGo_snd_sum positions []
  simpa [aggregateSectorCapital] using h

theorem sum_map_div {α : Type} (l : List α) (f : α → ℚ) (T : ℚ) :
    (l.map (fun x => f x / T)).sum = (l.map f).sum / T := by
  induction l with
  | nil => simp
  | cons a t ih => simp [ih, add_div]

theorem sum_map_add_const {α : Type} (l : List α) (f : α → ℚ) (c : ℚ) :
    (l.map (fun x => f x + c)).sum = (l.map f).sum + (l.length : ℚ) * c := by
  induction l with
  | nil => simp
  | cons a t ih =>
    simp [ih]
    push_cast
    ring

set_option maxRecDepth 40000 in
/-- C8 counterexample: capitals `[199891, 31, 31, 31]` over distinct sectors
with `total_capital = 200000` satisfy the claim's hypotheses (positive total,
summed capital at most the total) yet the returned 4-decimal-rounded
exposure fractions are `[0.9995, 0.0002, 0.0002, 0.0002]`, which sum to
`1.0001 > 1`.  (Python: `sum(round(c/200000, 4) for c in ...) == 1.0001`.) -/
theorem compute_sector_exposure_sum_counterexample :
    (0:ℚ) < 200000 ∧
    ((([⟨some "TECH", some 199891⟩, ⟨some "ENERGY", some 31⟩,
        ⟨some "FINANCE", some 31⟩, ⟨some "HEALTH", some 31⟩] :
        List SectorCap)).map
      (fun p => max (p.capital_allocated.getD 0) 0)).sum ≤ 200000 ∧
    1 < ((compute_sector_exposure
      [⟨some "TECH", some 199891⟩, ⟨some "ENERGY", some 31⟩,
       ⟨some "FINANCE", some 31⟩, ⟨some "HEALTH", some 31⟩]
      200000).map Prod.snd).sum := by
  refine ⟨by norm_num, by with_unfolding_all decide,
    by with_unfolding_all decide⟩

/-- C8 amended: under the claim's hypotheses (positive total capital, summed
capital — negatives clipped to zero — at most the total), the *unrounded*
exposure fractions sum to at most 1, and the fractions actually returned by
`compute_sector_exposure` (rounded to 4 decimals) sum to at most
`1 + 0.00005` per returned sector. -/
theorem compute_sector_exposure_sum_le (positions : List SectorCap)
    (total_capital : ℚ) (hT : 0 < total_capital)
    (hsum : (positions.map (fun p => max (p.capital_allocated.getD 0) 0)).sum
      ≤ total_capital) :
    ((aggregateSectorCapital positions).map
      (fun p => p.2 / total_capital)).sum ≤ 1 ∧
    ((compute_sector_exposure positions total_capital).map Prod.snd).sum
      ≤ 1 + ((compute_sector_exposure positions total_capital).length : ℚ)
          / 20000 := by
  have hcontrib : (positions.map (fun p =>
      if p.capital_allocated.getD 0 ≤ 0 then 0
      else p.capital_allocated.getD 0)).sum
      = (positions.map (fun p => max (p.capital_allocated.getD 0) 0)).sum := by
    refine congrArg List.sum (List.map_congr_left ?_)
    intro p _
    by_cases h : p.capital_allocated.getD 0 ≤ 0
    · rw [if_pos h, max_eq_right h]
    · rw [if_neg h, max_eq_left (le_of_lt (not_le.mp h))]
  have hS : ((aggregateSectorCapital positions).map Prod.snd).sum
      ≤ total_capital := by
    rw [aggregateSectorCapital_snd_sum, hcontrib]
    exact hsum
  have hfrac : ((aggregateSectorCapital positions).map
      (fun p => p.2 / total_capital)).sum ≤ 1 := by
    rw [sum_map_div]
    rw [div_le_one hT]
    exact hS
  refine ⟨hfrac, ?_⟩
  unfold compute_sector_exposure
  rw [if_neg (not_le.mpr hT)]
  by_cases hpos : positions.isEmpty
  · rw [if_pos hpos]
    norm_num
  · rw [if_neg hpos]
    rw [List.map_map, List.length_map]
    have hle : ((aggregateSectorCapital positions).map
        (Prod.snd ∘ fun p => (p.1, roundToDec 4 (p.2 / total_capital)))).sum
        ≤ ((aggregateSectorCapital positions).map
          (fun p => p.2 / total_capital + 1 / 20000)).sum := by
      apply List.sum_le_sum
      intro p _
      have h := roundToDec_le_add (d := 4) (p.2 / total_capital)
      norm_num at h ⊢
      exact h
    calc ((aggregateSectorCapital positions).map
          (Prod.snd ∘ fun p => (p.1, roundToDec 4 (p.2 / total_capital)))).sum
        ≤ ((aggregateSectorCapital positions).map
          (fun p => p.2 / total_capital + 1 / 20000)).sum := hle
      _ = ((aggregateSectorCapital positions).map
          (fun p => p.2 / total_capital)).sum
          + ((aggregateSectorCapital positions).length : ℚ) * (1 / 20000) :=
        sum_map_add_const _ _ _
      _ ≤ 1 + ((aggregateSectorCapital positions).length : ℚ) / 20000 := by
        have := hfrac
        linarith

/-- Witness for C8's amended theorem: a single 50% sector. -/
theorem compute_sector_exposure_sum_le_witness :
    ((0:ℚ) < 100000 ∧
      (([⟨some "TECH", some 50000⟩] : List SectorCap).map
        (fun p => max (p.capital_allocated.getD 0) 0)).sum ≤ 100000) ∧
    ((aggregateSectorCapital [⟨some "TECH", some 50000⟩]).map
      (fun p => p.2 / 100000)).sum ≤ 1 ∧
    ((compute_sector_exposure [⟨some "TECH", some 50000⟩] 100000).map
      Prod.snd).sum
      ≤ 1 + ((compute_sector_exposure [⟨some "TECH", some 50000⟩]
          100000).length : ℚ) / 20000 :=
  ⟨⟨by norm_num, by with_unfolding_all decide⟩,
    compute_sector_exposure_sum_le [⟨some "TECH", some 50000⟩] 100000
      (by norm_num) (by with_unfolding_all decide)⟩

/-! ## Claim C9: the dominant sector under ties -/

/-- The Python `max` key `(exposure_map[k], k)` as a lexicographic pair. -/
def sectorKey (p : String × ℚ) : ℚ ×ₗ String := toLex (p.2, p.1)

theorem exposureKeyLt_iff (a b : String × ℚ) :
    exposureKeyLt a b = true ↔ sectorKey a < sectorKey b := by
  simp [exposureKeyLt, sectorKey, Prod.Lex.lt_iff]

theorem sectorKey_inj {a b : String × ℚ} (h : sectorKey a = sectorKey b) :
    a = b := by
  have h1 : (ofLex (sectorKey a)).1 = (ofLex (sectorKey b)).1 := by rw [h]
  have h2 : (ofLex (sectorKey a)).2 = (ofLex (sectorKey b)).2 := by rw [h]
  simp only [sectorKey] at h1 h2
  exact Prod.ext h2 h1

theorem maxByExposureKey_spec (t : List (String × ℚ)) :
    ∀ h : String × ℚ,
      (maxByExposureKey h t = h ∨ maxByExposureKey h t ∈ t) ∧
      (∀ q : String × ℚ, (q = h ∨ q ∈ t) →
        sectorKey q ≤ sectorKey (maxByExposureKey h t)) := by
  induction t with
  | nil =>
    intro h
    refine ⟨Or.inl rfl, ?_⟩
    rintro q (rfl | hq)
    · exact le_refl _
    · cases hq
  | cons p rest ih =>
    intro h
    have hstep : maxByExposureKey h (p :: rest) =
        maxByExposureKey (if exposureKeyLt h p then p else h) rest := rfl
    obtain ⟨hmem, hmax⟩ := ih (if exposureKeyLt h p then p else h)
    have hhead : sectorKey h ≤
        sectorKey (maxByExposureKey (if exposureKeyLt h p then p else h) rest) := by
      by_cases hc : exposureKeyLt h p
      · have hlt : sectorKey h < sectorKey p := (exposureKeyLt_iff h p).mp hc
        have := hmax p (Or.inl (by rw [if_pos hc]))
        exact le_of_lt (lt_of_lt_of_le hlt this)
      · have := hmax h (Or.inl (by rw [if_neg hc]))
        exact this
    have hp0 : sectorKey p ≤
        sectorKey (maxByExposureKey (if exposureKeyLt h p then p else h) rest) := by
      by_cases hc : exposureKeyLt h p
      · exact hmax p (Or.inl (by rw [if_pos hc]))
      · have hnlt : ¬ sectorKey h < sectorKey p := by
          intro hlt
          exact hc ((exposureKeyLt_iff h p).mpr hlt)
        have hle : sectorKey p ≤ sectorKey h := not_lt.mp hnlt
        have := hmax h (Or.inl (by rw [if_neg hc]))
        exact le_trans hle this
    refine ⟨?_, ?_⟩
    · rw [hstep]
      rcases hmem with he | hm
      · rw [he]
        split
        · exact Or.inr (List.mem_cons_self p rest)
        · exact Or.inl rfl
      · exact Or.inr (List.mem_cons_of_mem p hm)
    · intro q hq
      rw [hstep]
      rcases hq with rfl | hq
      · exact hhead
      · rcases List.mem_cons.mp hq with rfl | hq2
        · exact hp0
        · exact hmax q (Or.inr hq2)

theorem evaluate_concentration_risk_dominant_eq (h : String × ℚ)
    (rest : List (String × ℚ)) (thr : Option Thresholds) :
    (evaluate_concentration_risk (h :: rest) thr).dominant_sector =
      some (maxByExposureKey h rest).1 ∧
    (evaluate_concentration_risk (h :: rest) thr).exposure =
      (maxByExposureKey h rest).2 := by
  simp only [evaluate_concentration_risk]
  split_ifs <;> exact ⟨rfl, rfl⟩

/-- C9: for every non-empty exposure map in which two or more sectors tie at
the maximal exposure, `evaluate_concentration_risk` reports a deterministic
dominant sector: the strict maximum of the map under the key
`(exposure, sector name)` — ties in exposure resolve to the alphabetically
greatest sector name. -/
theorem evaluate_concentration_risk_dominant (exposure_map : List (String × ℚ))
    (hne : exposure_map ≠ [])
    (htie : ∃ p ∈ exposure_map, ∃ q ∈ exposure_map,
      p.1 ≠ q.1 ∧ p.2 = q.2 ∧ ∀ r ∈ exposure_map, r.2 ≤ p.2) :
    ∃ m ∈ exposure_map,
      (evaluate_concentration_risk exposure_map none).dominant_sector = some m.1 ∧
      (evaluate_concentration_risk exposure_map none).exposure = m.2 ∧
      ∀ q ∈ exposure_map, q ≠ m → sectorKey q < sectorKey m := by
  match exposure_map, hne with
  | h :: rest, _ =>
    obtain ⟨hdom, hexp⟩ := evaluate_concentration_risk_dominant_eq h rest none
    obtain ⟨hmem, hmax⟩ := maxByExposureKey_spec rest h
    refine ⟨maxByExposureKey h rest, ?_, hdom, hexp, ?_⟩
    · rcases hmem with he | hm
      · rw [he]; exact List.mem_cons_self h rest
      · exact List.mem_cons_of_mem h hm
    · intro q hq hne'
      have hle : sectorKey q ≤ sectorKey (maxByExposureKey h rest) := by
        rcases List.mem_cons.mp hq with rfl | hqr
        · exact hmax q (Or.inl rfl)
        · exact hmax q (Or.inr hqr)
      rcases lt_or_eq_of_le hle with hlt | heq
      · exact hlt
      · exact absurd (sectorKey_inj heq) hne'

/-- Witness for C9: ENERGY and TECH tie at 50%; the dominant sector is the
alphabetically greater TECH. -/
theorem evaluate_concentration_risk_dominant_witness :
    (([("ENERGY", (1:ℚ)/2), ("TECH", (1:ℚ)/2)] : List (String × ℚ)) ≠ [] ∧
      (evaluate_concentration_risk [("ENERGY", (1:ℚ)/2), ("TECH", (1:ℚ)/2)]
        none).dominant_sector = some "TECH") ∧
    ∃ m ∈ ([("ENERGY", (1:ℚ)/2), ("TECH", (1:ℚ)/2)] : List (String × ℚ)),
      (evaluate_concentration_risk [("ENERGY", (1:ℚ)/2), ("TECH", (1:ℚ)/2)]
        none).dominant_sector = some m.1 ∧
      (evaluate_concentration_risk [("ENERGY", (1:ℚ)/2), ("TECH", (1:ℚ)/2)]
        none).exposure = m.2 ∧
      ∀ q ∈ ([("ENERGY", (1:ℚ)/2), ("TECH", (1:ℚ)/2)] : List (String × ℚ)),
        q ≠ m → sectorKey q < sectorKey m :=
  ⟨⟨by with_unfolding_all decide, by with_unfolding_all decide⟩,
    evaluate_concentration_risk_dominant
      [("ENERGY", (1:ℚ)/2), ("TECH", (1:ℚ)/2)]
      (by with_unfolding_all decide)
      ⟨("ENERGY", (1:ℚ)/2), by with_unfolding_all decide,
        ("TECH", (1:ℚ)/2), by with_unfolding_all decide,
        by with_unfolding_all decide, by with_unfolding_all decide,
        by with_unfolding_all decide⟩⟩

/-! ## Support lemmas for the run-level claims -/

theorem exMapM_ok_mem {α β : Type} {f : α → Except String β} :
    ∀ {l : List α} {l' : List β}, exMapM f l = Except.ok l' →
      ∀ b ∈ l', ∃ a ∈ l, f a = Except.ok b := by
  intro l
  induction l with
  | nil =>
    intro l' h b hb
    simp only [exMapM] at h
    injection h with h
    subst h
    cases hb
  | cons a rest ih =>
    intro l' h b hb
    simp only [exMapM] at h
    cases hfa : f a with
    | error e => rw [hfa] at h; cases h
    | ok b0 =>
      rw [hfa] at h
      cases hrest : exMapM f rest with
      | error e => rw [hrest] at h; cases h
      | ok bs =>
        rw [hrest] at h
        injection h with h
        subst h
        rcases List.mem_cons.mp hb with rfl | hb2
        · exact ⟨a, List.mem_cons_self a rest, hfa⟩
        · obtain ⟨a2, ha2, hfa2⟩ := ih hrest b hb2
          exact ⟨a2, List.mem_cons_of_mem a ha2, hfa2⟩

theorem exMapM_ok_length {α β : Type} {f : α → Except String β} :
    ∀ {l : List α} {l' : List β}, exMapM f l = Except.ok l' →
      l'.length = l.length := by
  intro l
  induction l with
  | nil =>
    intro l' h
    simp only [exMapM] at h
    injection h with h
    subst h
    rfl
  | cons a rest ih =>
    intro l' h
    simp only [exMapM] at h
    cases hfa : f a with
    | error e => rw [hfa] at h; cases h
    | ok b0 =>
      rw [hfa] at h
      cases hrest : exMapM f rest with
      | error e => rw [hrest] at h; cases h
      | ok bs =>
        rw [hrest] at h
        injection h with h
        subst h
        simp [ih hrest]

theorem exMapM_ok_of_forall {α β : Type} {f : α → Except String β} :
    ∀ {l : List α}, (∀ a ∈ l, ∃ b, f a = Except.ok b) →
      ∃ l', exMapM f l = Except.ok l' := by
  intro l
  induction l with
  | nil => intro _; exact ⟨[], rfl⟩
  | cons a rest ih =>
    intro h
    obtain ⟨b, hb⟩ := h a (List.mem_cons_self a rest)
    obtain ⟨bs, hbs⟩ := ih (fun x hx => h x (List.mem_cons_of_mem a hx))
    refine ⟨b :: bs, ?_⟩
    simp only [exMapM, hb, hbs]

theorem exMapM_ok_countP {α β : Type} {f : α → Except String β}
    (p : β → Bool) (q : α → Bool)
    (hpres : ∀ a b, f a = Except.ok b → p b = q a) :
    ∀ {l : List α} {l' : List β}, exMapM f l = Except.ok l' →
      l'.countP p = l.countP q := by
  intro l
  induction l with
  | nil =>
    intro l' h
    simp only [exMapM] at h
    injection h with h
    subst h
    rfl
  | cons a rest ih =>
    intro l' h
    simp only [exMapM] at h
    cases hfa : f a with
    | error e => rw [hfa] at h; cases h
    | ok b0 =>
      rw [hfa] at h
      cases hrest : exMapM f rest with
      | error e => rw [hrest] at h; cases h
      | ok bs =>
        rw [hrest] at h
        injection h with h
        subst h
        rw [List.countP_cons, List.countP_cons, ih hrest,
          hpres a b0 hfa]

theorem countP_filter_split {α : Type} (p q : α → Bool) (l : List α) :
    (l.filter q).countP p + (l.filter (fun a => ! q a)).countP p
      = l.countP p := by
  induction l with
  | nil => rfl
  | cons a t ih =>
    cases hq : q a <;> cases hp : p a <;>
      simp [List.filter_cons, hq, hp, List.countP_cons] <;>
      omega

/-- The nine actions the synthesizer can assign to a POSITION decision
(decision_engine.py lines 348-390). -/
def positionActions : List String :=
  ["FREE_CAPITAL", "REDUCE_AGGRESSIVE", "TRIM_RISK", "HOLD_CAPPED",
   "REDUCE", "REVIEW", "HOLD", "MAINTAIN", "REDUCE_RISK"]

theorem positionDecision_type (pr : PostureReport) (cw : ConcWarning)
    (dead : List String) (press bopp : Bool) (conf : String)
    (pos : AnalyzedPosition) :
    (positionDecision pr cw dead press bopp conf pos).type = "POSITION" := rfl

theorem positionDecision_action_mem (pr : PostureReport) (cw : ConcWarning)
    (dead : List String) (press bopp : Bool) (conf : String)
    (pos : AnalyzedPosition) :
    (positionDecision pr cw dead press bopp conf pos).action
      ∈ positionActions := by
  simp only [positionDecision, positionActions]
  split_ifs <;> simp

theorem candidateDecision_ok_type {pf : PyPortfolio} {pr : PostureReport}
    {cw : ConcWarning} {hot : List String} {press : Bool}
    {active : List PyCandidate} {cand : PyCandidate} {d : Decision}
    (h : candidateDecision pf pr cw hot press active cand = Except.ok d) :
    d.type = "CANDIDATE" := by
  simp only [candidateDecision] at h
  split at h
  · cases h
  · split at h
    · cases h
    · split_ifs at h <;>
      first
        | (injection h with h; subst h; rfl)
        | (split at h
           · cases h
           · split_ifs at h <;> (injection h with h; subst h; rfl))

theorem candidateDecision_empty_active {pf : PyPortfolio}
    {pr : PostureReport} {cw : ConcWarning} {hot : List String} {press : Bool}
    {cand : PyCandidate} {d : Decision}
    (h : candidateDecision pf pr cw hot press [] cand = Except.ok d) :
    d.action = "BLOCK_POSTURE" := by
  simp only [candidateDecision] at h
  split at h
  · cases h
  · split at h
    · cases h
    · rw [if_pos (by simp : ¬ (List.contains [] cand) = true)] at h
      injection h with h
      subst h
      rfl

theorem attachSectorFlags_ok_type_action {analyzed : List AnalyzedPosition}
    {cands : List PyCandidate} {d d' : Decision}
    (h : attachSectorFlags analyzed cands d = Except.ok d') :
    d'.type = d.type ∧ d'.action = d.action := by
  simp only [attachSectorFlags] at h
  split_ifs at h
  · cases hf : analyzed.find? (fun p => p.symbol == d.target) with
    | none => rw [hf] at h; injection h with h; subst h; exact ⟨rfl, rfl⟩
    | some p => rw [hf] at h; injection h with h; subst h; exact ⟨rfl, rfl⟩
  · cases hfc : findCandidateBySymbol cands d.target with
    | error e => rw [hfc] at h; cases h
    | ok o =>
      rw [hfc] at h
      cases o with
      | none => injection h with h; subst h; exact ⟨rfl, rfl⟩
      | some c => injection h with h; subst h; exact ⟨rfl, rfl⟩
  · injection h with h; subst h; exact ⟨rfl, rfl⟩

theorem enrich_mem {ds : List Decision} {ps : PortfolioSignals}
    {rs : RiskSignals} {d' : Decision}
    (h : d' ∈ enrich_decisions_with_explanations ds ps rs) :
    ∃ d ∈ ds, d'.type = d.type ∧ d'.action = d.action := by
  simp only [enrich_decisions_with_explanations, List.mem_map] at h
  obtain ⟨d, hd, rfl⟩ := h
  exact ⟨d, hd, rfl, rfl⟩

theorem enrich_countP (ds : List Decision) (ps : PortfolioSignals)
    (rs : RiskSignals) (p : Decision → Bool)
    (hp : ∀ d r, p { d with reasons := r } = p d) :
    (enrich_decisions_with_explanations ds ps rs).countP p = ds.countP p := by
  unfold enrich_decisions_with_explanations
  rw [List.countP_map]
  apply List.countP_congr
  intro d _
  show p _ = true ↔ p d = true
  rw [hp]

/-- Guardrail rule chain: none of the nine POSITION actions belongs to any
of the three block sets, for every risk context. -/
theorem computeBlockReason_position_action (rc : RiskContext) (d : Decision)
    (h : d.action ∈ positionActions) :
    computeBlockReason rc d = none := by
  simp only [positionActions] at h
  simp only [List.mem_cons, List.not_mem_nil, or_false] at h
  rcases h with h | h | h | h | h | h | h | h | h <;>
    simp [computeBlockReason, h, increasing_actions, aggressive_allocs,
      capital_actions, aggressive_actions]

/-- Inversion principle for a successful `run_decision_engine` call: the four
fallible stages succeeded, and the output is the guardrail-filtered record
built from their results. -/
theorem run_decision_engine_ok_inversion (portfolio_state : PyPortfolio)
    (positions : List PyPosition) (sector_heatmap : Heatmap)
    (candidates : List PyCandidate) (market_context : Option MarketContext)
    (out : RunOutput)
    (hok : run_decision_engine portfolio_state positions sector_heatmap
      candidates market_context = Except.ok out) :
    ∃ (news_res : NewsResult) (opportunity_report : OpportunityReport)
      (candDecisions decorated : List Decision),
      computeNewsRes market_context = Except.ok news_res ∧
      (let vol_state := computeVolState market_context
       let confidence_score := computeConfidence market_context vol_state
         news_res.news_score
       let analyzed_positions := positions.map analyzePosition
       let vitals_counts := tallyVitals analyzed_positions
       let posture_report := determine_market_posture vol_state
         confidence_score news_res.news_score
         ⟨some (vitals_counts.healthy : ℤ), some (vitals_counts.weak : ℤ),
           some (vitals_counts.unhealthy : ℤ)⟩
       let lock_in_report := detect_capital_lock_in portfolio_state
         analyzed_positions sector_heatmap
       let conc_warning := (analyze_portfolio_concentration
         (analyzed_positions.map
           (fun a => ⟨a.orig.sector, a.orig.capital_allocated⟩))
         (portfolio_state.total_capital.getD 1) none).warning
       let active_candidates :=
         if posture_report.market_posture ∈ ["DEFENSIVE", "RISK_OFF"] then []
         else candidates
       let guardrail_results := apply_risk_guardrails
         (enrich_decisions_with_explanations decorated
           { dead_capital_symbols :=
               lock_in_report.dead_positions.map (fun dp => dp.symbol)
             hot_sectors := lock_in_report.hot_sectors
             reallocation_pressure := lock_in_report.reallocation_alert
             pressure_score := lock_in_report.pressure_score }
           { concentration_warning := conc_warning
             better_opp_exists := opportunity_report.better_opportunity_exists
             opp_confidence := opportunity_report.confidence
             market_posture := posture_report })
         (some { concentration := some conc_warning
                 cash_available := some (portfolio_state.cash.getD 0)
                 minimum_reserve := some 50000
                 volatility_state := some vol_state })
       scan_for_opportunities analyzed_positions active_candidates 15 =
         Except.ok opportunity_report ∧
       exMapM (candidateDecision portfolio_state posture_report conc_warning
           lock_in_report.hot_sectors lock_in_report.reallocation_alert
           active_candidates) candidates = Except.ok candDecisions ∧
       exMapM (attachSectorFlags analyzed_positions candidates)
         (analyzed_positions.map (positionDecision posture_report conc_warning
             (lock_in_report.dead_positions.map (fun dp => dp.symbol))
             lock_in_report.reallocation_alert
             opportunity_report.better_opportunity_exists
             opportunity_report.confidence)
           ++ candDecisions) = Except.ok decorated ∧
       out = { market_posture := posture_report
               decisions := guardrail_results.allowed_actions
               blocked_by_safety := guardrail_results.blocked_actions
               concentration_risk := conc_warning
               reallocation_trigger := lock_in_report.reallocation_alert
               opportunity_scan := opportunity_report
               pressure_score := lock_in_report.pressure_score }) := by
  simp only [run_decision_engine] at hok
  split at hok
  · cases hok
  · rename_i news_res h1
    split at hok
    · cases hok
    · rename_i opportunity_report h2
      split at hok
      · cases hok
      · rename_i candDecisions h3
        split at hok
        · cases hok
        · rename_i decorated h4
          split at hok
          · cases hok
          · injection hok with hok
            exact ⟨news_res, opportunity_report, candDecisions, decorated,
              h1, h2, h3, h4, hok.symm⟩

/-- Every decision blocked by the final safety gate of a completed
`run_decision_engine` call traces back, through explanation enrichment and
metadata attachment, to a synthesized POSITION or CANDIDATE decision; the
POSITION ones can never be blocked. -/
theorem run_blocked_decision_trace {portfolio_state : PyPortfolio}
    {positions : List PyPosition} {sector_heatmap : Heatmap}
    {candidates : List PyCandidate} {market_context : Option MarketContext}
    {out : RunOutput}
    (hok : run_decision_engine portfolio_state positions sector_heatmap
      candidates market_context = Except.ok out) :
    ∀ d ∈ out.blocked_by_safety, d.type = "CANDIDATE" := by
  obtain ⟨news_res, opportunity_report, candDecisions, decorated,
    h1, h2, h3, h4, hout⟩ :=
    run_decision_engine_ok_inversion portfolio_state positions sector_heatmap
      candidates market_context out hok
  intro d hd
  rw [hout] at hd
  dsimp only at hd
  unfold apply_risk_guardrails at hd
  split at hd
  · exact absurd hd (List.not_mem_nil d)
  · dsimp only at hd
    split at hd
    · rename_i hcon
      simp [rcIsEmptyDict] at hcon
    · dsimp only at hd
      rw [guardLoop_blocked] at hd
      simp only [List.mem_map, List.mem_filter] at hd
      obtain ⟨e, ⟨hemem, hesome⟩, rfl⟩ := hd
      obtain ⟨d0, hd0mem, hetype, heaction⟩ := enrich_mem hemem
      obtain ⟨d1, hd1mem, hattach⟩ := exMapM_ok_mem h4 d0 hd0mem
      obtain ⟨hd0type, hd0action⟩ := attachSectorFlags_ok_type_action hattach
      rcases List.mem_append.mp hd1mem with hpos | hcand
      · exfalso
        obtain ⟨pos, _, rfl⟩ := List.mem_map.mp hpos
        have hact : e.action ∈ positionActions := by
          rw [heaction, hd0action]
          exact positionDecision_action_mem _ _ _ _ _ _ _
        rw [computeBlockReason_position_action _ e hact] at hesome
        simp at hesome
      · obtain ⟨cand, _, hcd⟩ := exMapM_ok_mem h3 d1 hcand
        rw [setSafetyReason_type, hetype, hd0type,
          candidateDecision_ok_type hcd]

/-- C10: for every input on which `run_decision_engine` completes, every
decision in the returned `blocked_by_safety` list has type CANDIDATE; and
none of the actions the synthesizer can assign to a POSITION decision
belongs to any RiskGuardrails block set (`computeBlockReason` is `none` on
them for every risk context), so position decisions always pass the final
safety gate. -/
theorem run_blocked_by_safety_candidates_only (portfolio_state : PyPortfolio)
    (positions : List PyPosition) (sector_heatmap : Heatmap)
    (candidates : List PyCandidate) (market_context : Option MarketContext)
    (out : RunOutput)
    (hok : run_decision_engine portfolio_state positions sector_heatmap
      candidates market_context = Except.ok out) :
    (∀ d ∈ out.blocked_by_safety, d.type = "CANDIDATE") ∧
    (∀ (rc : RiskContext) (d : Decision), d.action ∈ positionActions →
      computeBlockReason rc d = none) :=
  ⟨run_blocked_decision_trace hok,
    fun rc d h => computeBlockReason_position_action rc d h⟩

instance : Inhabited RunOutput :=
  ⟨⟨⟨"", "", 0, []⟩, [], [], ⟨false, none, 0, 0, ""⟩, false,
    ⟨"", 0, "", 0, 0, false, "", 0⟩, 0⟩⟩

/-- Concrete scenario for the C10 witness: one weak BANKING position (dead
capital), a hot TECH candidate, and cash below the minimum reserve, so the
candidate's ALLOCATE_HIGH ends up in `blocked_by_safety`. -/
def w10pf : PyPortfolio := ⟨some 1000000, some 30000⟩

def w10poss : List PyPosition :=
  [⟨some "OLD_BANK", some "BANKING", some 100, some 99, some (5/2),
    some 20, some 600000⟩]

def w10hm : Heatmap := [("TECH", 80), ("BANKING", 30)]

def w10cands : List PyCandidate := [⟨some "HOT_T", some "TECH", some 90⟩]

def w10out : RunOutput :=
  (run_decision_engine w10pf w10poss w10hm w10cands none).toOption.getD default

set_option maxRecDepth 100000 in
theorem w10_run_eq : run_decision_engine w10pf w10poss w10hm w10cands none
    = Except.ok w10out := by
  with_unfolding_all rfl

/-- Witness for C10 at a concrete input whose blocked list is non-empty. -/
theorem run_blocked_by_safety_candidates_only_witness :
    (run_decision_engine w10pf w10poss w10hm w10cands none
      = Except.ok w10out) ∧
    (∀ d ∈ w10out.blocked_by_safety, d.type = "CANDIDATE") ∧
    (∀ (rc : RiskContext) (d : Decision), d.action ∈ positionActions →
      computeBlockReason rc d = none) :=
  ⟨w10_run_eq,
    (run_blocked_by_safety_candidates_only w10pf w10poss w10hm w10cands
      none w10out w10_run_eq).1,
    (run_blocked_by_safety_candidates_only w10pf w10poss w10hm w10cands
      none w10out w10_run_eq).2⟩

theorem guardLoop_countP (rc : RiskContext) (E : List Decision)
    (t : Decision → Bool) (ht : ∀ d r, t (setSafetyReason d r) = t d) :
    ((guardLoop rc E).1).countP t + ((guardLoop rc E).2).countP t
      = E.countP t := by
  have h1 : (List.filter (fun d => (computeBlockReason rc d).isSome) E).countP
        (t ∘ fun d => setSafetyReason d ((computeBlockReason rc d).getD ""))
      = (List.filter (fun d => (computeBlockReason rc d).isSome) E).countP t :=
    List.countP_congr (fun d _ => by
      show t (setSafetyReason d _) = true ↔ t d = true
      rw [ht])
  have h2 : List.filter (fun d => (computeBlockReason rc d).isSome) E
      = List.filter (fun d => ! (computeBlockReason rc d).isNone) E :=
    List.filter_congr (fun d _ => by cases computeBlockReason rc d <;> rfl)
  rw [guardLoop_allowed, guardLoop_blocked, List.countP_map, h1, h2,
    countP_filter_split]

theorem enrich_countP_type (ds : List Decision) (ps : PortfolioSignals)
    (rs : RiskSignals) :
    (enrich_decisions_with_explanations ds ps rs).countP
        (fun d => d.type == "CANDIDATE")
      = ds.countP (fun d => d.type == "CANDIDATE") :=
  enrich_countP ds ps rs _ (fun d r => rfl)

/-- C5: whenever the market posture computed inside `run_decision_engine` is
DEFENSIVE or RISK_OFF, every CANDIDATE decision in the output (allowed or
blocked) has action BLOCK_POSTURE — independent of the candidate's sector,
efficiency, concentration state or cash — and there is exactly one
CANDIDATE decision per input candidate. -/
theorem run_defensive_riskoff_blocks_candidates
    (portfolio_state : PyPortfolio) (positions : List PyPosition)
    (sector_heatmap : Heatmap) (candidates : List PyCandidate)
    (market_context : Option MarketContext) (out : RunOutput)
    (hok : run_decision_engine portfolio_state positions sector_heatmap
      candidates market_context = Except.ok out)
    (hpost : out.market_posture.market_posture = "DEFENSIVE" ∨
      out.market_posture.market_posture = "RISK_OFF") :
    (∀ d ∈ out.decisions ++ out.blocked_by_safety,
      d.type = "CANDIDATE" → d.action = "BLOCK_POSTURE") ∧
    (out.decisions ++ out.blocked_by_safety).countP
      (fun d => d.type == "CANDIDATE") = candidates.length := by
  obtain ⟨news_res, opportunity_report, candDecisions, decorated,
    h1, h2, h3, h4, hout⟩ :=
    run_decision_engine_ok_inversion portfolio_state positions sector_heatmap
      candidates market_context out hok
  subst hout
  dsimp only at hpost
  split at h3
  case isFalse hnp =>
    exfalso
    apply hnp
    rcases hpost with h | h <;> rw [h] <;> simp
  case isTrue hp =>
  have hattachPres : ∀ (a b : Decision),
      attachSectorFlags (positions.map analyzePosition) candidates a
        = Except.ok b →
      (b.type == "CANDIDATE") = (a.type == "CANDIDATE") := by
    intro a b hab
    rw [(attachSectorFlags_ok_type_action hab).1]
  constructor
  · intro d hd htype
    rcases List.mem_append.mp hd with hd | hd <;> dsimp only at hd <;>
      unfold apply_risk_guardrails at hd
    · split at hd
      · exact absurd hd (List.not_mem_nil d)
      · dsimp only at hd
        split at hd
        · rename_i hcon
          simp [rcIsEmptyDict] at hcon
        · dsimp only at hd
          rw [guardLoop_allowed] at hd
          have hemem := List.mem_of_mem_filter hd
          obtain ⟨d0, hd0mem, hetype, heaction⟩ := enrich_mem hemem
          obtain ⟨d1, hd1mem, hattach⟩ := exMapM_ok_mem h4 d0 hd0mem
          obtain ⟨hd0type, hd0action⟩ := attachSectorFlags_ok_type_action hattach
          rcases List.mem_append.mp hd1mem with hposm | hcandm
          · exfalso
            obtain ⟨pos, _, rfl⟩ := List.mem_map.mp hposm
            rw [hetype, hd0type, positionDecision_type] at htype
            exact absurd htype (by decide)
          · obtain ⟨cand, _, hcd⟩ := exMapM_ok_mem h3 d1 hcandm
            rw [heaction, hd0action, candidateDecision_empty_active hcd]
    · split at hd
      · exact absurd hd (List.not_mem_nil d)
      · dsimp only at hd
        split at hd
        · rename_i hcon
          simp [rcIsEmptyDict] at hcon
        · dsimp only at hd
          rw [guardLoop_blocked] at hd
          simp only [List.mem_map, List.mem_filter] at hd
          obtain ⟨e, ⟨hemem, _⟩, rfl⟩ := hd
          obtain ⟨d0, hd0mem, hetype, heaction⟩ := enrich_mem hemem
          obtain ⟨d1, hd1mem, hattach⟩ := exMapM_ok_mem h4 d0 hd0mem
          obtain ⟨hd0type, hd0action⟩ := attachSectorFlags_ok_type_action hattach
          rcases List.mem_append.mp hd1mem with hposm | hcandm
          · exfalso
            obtain ⟨pos, _, rfl⟩ := List.mem_map.mp hposm
            rw [setSafetyReason_type, hetype, hd0type,
              positionDecision_type] at htype
            exact absurd htype (by decide)
          · obtain ⟨cand, _, hcd⟩ := exMapM_ok_mem h3 d1 hcandm
            rw [setSafetyReason_action, heaction, hd0action,
              candidateDecision_empty_active hcd]
  · dsimp only
    unfold apply_risk_guardrails
    split
    case isTrue hemp =>
      have hdec : decorated = [] := by
        by_contra hne
        cases hdl : decorated with
        | nil => exact hne hdl
        | cons a t =>
          rw [hdl] at hemp
          simp [enrich_decisions_with_explanations] at hemp
      have hlen := exMapM_ok_length h4
      rw [hdec] at hlen
      simp only [List.length_nil, List.length_append, List.length_map] at hlen
      have hclen := exMapM_ok_length h3
      simp [hdec, enrich_decisions_with_explanations]
      omega
    case isFalse =>
      dsimp only
      split
      case isTrue hcon => simp [rcIsEmptyDict] at hcon
      case isFalse =>
        dsimp only
        rw [List.countP_append,
          guardLoop_countP _ _ (fun d => d.type == "CANDIDATE")
            (fun d r => rfl)]
        rw [enrich_countP_type]
        rw [exMapM_ok_countP _ _ hattachPres h4]
        rw [List.countP_append]
        have hpz : ∀ (pr : PostureReport) (cw : ConcWarning)
            (dead : List String) (ra bo : Bool) (oc : String)
            (aps : List AnalyzedPosition),
            (List.map (positionDecision pr cw dead ra bo oc) aps).countP
              (fun d => d.type == "CANDIDATE") = 0 := by
          intro pr cw dead ra bo oc aps
          rw [List.countP_eq_zero]
          intro d1 hd1
          obtain ⟨pos, _, rfl⟩ := List.mem_map.mp hd1
          simp [positionDecision_type]
        have hcc : candDecisions.countP (fun d => d.type == "CANDIDATE")
            = candDecisions.length := by
          rw [List.countP_eq_length]
          intro b hb
          obtain ⟨cand, _, hcd⟩ := exMapM_ok_mem h3 b hb
          simp [candidateDecision_ok_type hcd]
        rw [hpz, hcc, exMapM_ok_length h3]
        omega

/-! ## Claim C1: totality on well-formed input, KeyError otherwise -/

theorem exMapM_no_error {α β : Type} {f : α → Except String β} {l : List α}
    {e : String} (h : ∀ a ∈ l, ∃ b, f a = Except.ok b)
    (he : exMapM f l = Except.error e) : False := by
  obtain ⟨l', hl⟩ := exMapM_ok_of_forall h
  rw [hl] at he
  cases he

theorem computeNewsRes_no_error (market_context : Option MarketContext)
    (e : String)
    (hnews : ∀ m, market_context = some m → ∀ h ∈ m.news,
      ∃ t, headlineTitle h = Except.ok t)
    (he : computeNewsRes market_context = Except.error e) : False := by
  unfold computeNewsRes at he
  cases market_context with
  | none => exact Except.noConfusion he
  | some m =>
    dsimp only at he
    by_cases hemp : m.news.isEmpty
    · rw [if_pos hemp] at he
      cases he
    · rw [if_neg hemp] at he
      cases hm : exMapM headlineTitle m.news with
      | error e2 => exact exMapM_no_error (hnews m rfl) hm
      | ok ts => rw [hm] at he; cases he

theorem maxByEfficiency_mem (t : List PyCandidate) :
    ∀ h : PyCandidate, maxByEfficiency h t = h ∨ maxByEfficiency h t ∈ t := by
  induction t with
  | nil => intro h; exact Or.inl rfl
  | cons p rest ih =>
    intro h
    have hstep : maxByEfficiency h (p :: rest) =
        maxByEfficiency (if h.projected_efficiency.getD 0 <
          p.projected_efficiency.getD 0 then p else h) rest := rfl
    rw [hstep]
    rcases ih (if h.projected_efficiency.getD 0 <
        p.projected_efficiency.getD 0 then p else h) with he | hm
    · rw [he]
      split
      · exact Or.inr (List.mem_cons_self p rest)
      · exact Or.inl rfl
    · exact Or.inr (List.mem_cons_of_mem p hm)

theorem scan_no_error (aps : List AnalyzedPosition)
    (cands : List PyCandidate) (thr : ℚ) (e : String)
    (h : ∀ c ∈ cands, c.symbol.isSome = true)
    (he : scan_for_opportunities aps cands thr = Except.error e) : False := by
  simp only [scan_for_opportunities] at he
  cases cands with
  | nil => exact Except.noConfusion he
  | cons c t =>
    dsimp only at he
    cases hs : (maxByEfficiency c t).symbol with
    | some s => rw [hs] at he; cases he
    | none =>
      have hmem : maxByEfficiency c t = c ∨ maxByEfficiency c t ∈ t :=
        maxByEfficiency_mem t c
      have hsym : (maxByEfficiency c t).symbol.isSome = true := by
        rcases hmem with hc | hm
        · rw [hc]; exact h c (List.mem_cons_self c t)
        · exact h _ (List.mem_cons_of_mem c hm)
      rw [hs] at hsym
      cases hsym

theorem candidateDecision_ok_of_wellformed (pf : PyPortfolio)
    (pr : PostureReport) (cw : ConcWarning) (hot : List String) (press : Bool)
    (active : List PyCandidate) (cand : PyCandidate)
    (hsym : cand.symbol.isSome = true) (hsec : cand.sector.isSome = true)
    (hcash : pf.cash.isSome = true) :
    ∃ d, candidateDecision pf pr cw hot press active cand = Except.ok d := by
  unfold candidateDecision
  cases hs : cand.symbol with
  | none => rw [hs] at hsym; cases hsym
  | some symbol =>
    cases hc : cand.sector with
    | none => rw [hc] at hsec; cases hsec
    | some sector =>
      dsimp only
      cases hpc : pf.cash with
      | none =>
        rw [hpc] at hcash
        simp at hcash
      | some cash =>
        dsimp only
        split_ifs <;> exact ⟨_, rfl⟩

theorem findCandidateBySymbol_ok (cands : List PyCandidate) (target : String)
    (h : ∀ c ∈ cands, c.symbol.isSome = true) :
    ∃ r, findCandidateBySymbol cands target = Except.ok r := by
  induction cands with
  | nil => exact ⟨none, rfl⟩
  | cons c t ih =>
    cases hs : c.symbol with
    | none =>
      have := h c (List.mem_cons_self c t)
      rw [hs] at this
      cases this
    | some s =>
      unfold findCandidateBySymbol
      rw [hs]
      dsimp only
      by_cases he : s = target
      · rw [if_pos he]; exact ⟨some c, rfl⟩
      · rw [if_neg he]
        exact ih (fun c2 hc2 => h c2 (List.mem_cons_of_mem c hc2))

theorem attachSectorFlags_ok_of_wellformed (aps : List AnalyzedPosition)
    (cands : List PyCandidate) (d : Decision)
    (h : ∀ c ∈ cands, c.symbol.isSome = true) :
    ∃ d', attachSectorFlags aps cands d = Except.ok d' := by
  unfold attachSectorFlags
  split_ifs
  · cases hf : aps.find? (fun p => p.symbol == d.target) with
    | none => exact ⟨_, rfl⟩
    | some p => exact ⟨_, rfl⟩
  · obtain ⟨r, hr⟩ := findCandidateBySymbol_ok cands d.target h
    rw [hr]
    cases r with
    | none => exact ⟨_, rfl⟩
    | some c => exact ⟨_, rfl⟩
  · exact ⟨_, rfl⟩

/-- C1, amended: `run_decision_engine` completes without raising on every
input in which each candidate dict has `symbol` and `sector` keys, each
news-headline dict has a `title` key, the portfolio dict has a `cash` key,
and `portfolio_state.get("total_capital", 1)` is nonzero.  (Without the
keys it raises KeyError — the claim's counterexample — and with
`total_capital` present and zero the unconditional `generate_pm_summary`
call raises ZeroDivisionError at decision_engine.py line 25.)  Every other
division in the pipeline is guarded and every other missing key falls back
to a default, so no other exception source exists. -/
theorem run_decision_engine_total_on_wellformed (portfolio_state : PyPortfolio)
    (positions : List PyPosition) (sector_heatmap : Heatmap)
    (candidates : List PyCandidate) (market_context : Option MarketContext)
    (hcash : portfolio_state.cash.isSome = true)
    (htc : portfolio_state.total_capital.getD 1 ≠ 0)
    (hcands : ∀ c ∈ candidates,
      c.symbol.isSome = true ∧ c.sector.isSome = true)
    (hnews : ∀ m, market_context = some m → ∀ h ∈ m.news,
      ∃ t, headlineTitle h = Except.ok t) :
    ∃ out, run_decision_engine portfolio_state positions sector_heatmap
      candidates market_context = Except.ok out := by
  unfold run_decision_engine
  split
  case h_1 e heq => exact (computeNewsRes_no_error _ _ hnews heq).elim
  case h_2 news_res heq =>
  dsimp only
  split
  case h_1 e heq2 =>
    refine (scan_no_error _ _ _ _ ?_ heq2).elim
    intro c hc
    split at hc
    · cases hc
    · exact (hcands c hc).1
  case h_2 opp heq2 =>
  try dsimp only
  split
  case h_1 e heq3 =>
    refine (exMapM_no_error ?_ heq3).elim
    intro c hc
    exact candidateDecision_ok_of_wellformed _ _ _ _ _ _ c
      (hcands c hc).1 (hcands c hc).2 hcash
  case h_2 candDecs heq3 =>
  try dsimp only
  split
  case h_1 e heq4 =>
    refine (exMapM_no_error ?_ heq4).elim
    intro d hd
    exact attachSectorFlags_ok_of_wellformed _ _ d (fun c hc => (hcands c hc).1)
  case h_2 decorated heq4 =>
    rw [if_neg htc]
    exact ⟨_, rfl⟩

def w5pf : PyPortfolio := ⟨some 1000000, some 150000⟩

def w5poss : List PyPosition :=
  [⟨some "L1", some "TECH", some 100, some 50, some (5/2), some 10,
    some 300000⟩,
   ⟨some "L2", some "UTILITIES", some 50, some 20, some 1, some 40,
    some 200000⟩]

def w5hm : Heatmap := [("TECH", 80), ("UTILITIES", 50)]

def w5cands : List PyCandidate := [⟨some "NEW_BIO", some "BIOTECH", some 75⟩]

def w5out : RunOutput :=
  (run_decision_engine w5pf w5poss w5hm w5cands none).toOption.getD default

set_option maxRecDepth 100000 in
theorem w5_run_eq : run_decision_engine w5pf w5poss w5hm w5cands none
    = Except.ok w5out := by
  with_unfolding_all rfl

set_option maxRecDepth 100000 in
theorem w5_post : w5out.market_posture.market_posture = "RISK_OFF" := by
  with_unfolding_all rfl

/-- Witness for C5 at a concrete RISK_OFF input with one candidate. -/
theorem run_defensive_riskoff_blocks_candidates_witness :
    (run_decision_engine w5pf w5poss w5hm w5cands none = Except.ok w5out) ∧
    w5out.market_posture.market_posture = "RISK_OFF" ∧
    (∀ d ∈ w5out.decisions ++ w5out.blocked_by_safety,
      d.type = "CANDIDATE" → d.action = "BLOCK_POSTURE") ∧
    (w5out.decisions ++ w5out.blocked_by_safety).countP
      (fun d => d.type == "CANDIDATE") = w5cands.length :=
  ⟨w5_run_eq, w5_post,
    (run_defensive_riskoff_blocks_candidates w5pf w5poss w5hm w5cands none
      w5out w5_run_eq (Or.inr w5_post)).1,
    (run_defensive_riskoff_blocks_candidates w5pf w5poss w5hm w5cands none
      w5out w5_run_eq (Or.inr w5_post)).2⟩

def w1pf : PyPortfolio := ⟨some 1000000, some 150000⟩

def w1badcands : List PyCandidate := [⟨some "NEW_BIO", none, some 75⟩]

def w1okcands : List PyCandidate := [⟨some "NEW_BIO", some "BIOTECH", some 75⟩]

/-- Counterexample to C1 as stated: a candidate dict without a `sector`
key makes `run_decision_engine` raise `KeyError: 'sector'`
(decision_engine.py line 395, `cand["sector"]`), so the function is not
exception-free on arbitrary dict-shaped input. -/
theorem run_decision_engine_keyerror_counterexample :
    run_decision_engine w1pf [] [] w1badcands none
      = Except.error "KeyError: sector" := by
  with_unfolding_all rfl

/-- The source also raises with all the keys of the original claim present:
`total_capital` present and zero drives the unguarded `cash / total` of
`generate_pm_summary` (decision_engine.py lines 24-25, called at 499) to a
`ZeroDivisionError`, which the amended claim therefore excludes. -/
theorem run_decision_engine_zerodiv :
    run_decision_engine ⟨some 0, some 50000⟩ [] [] [] none
      = Except.error "ZeroDivisionError: division by zero" := by
  with_unfolding_all rfl

/-- Witness for the amended C1 at a concrete well-formed input. -/
theorem run_decision_engine_total_on_wellformed_witness :
    w1pf.cash.isSome = true ∧
    w1pf.total_capital.getD 1 ≠ 0 ∧
    (∀ c ∈ w1okcands, c.symbol.isSome = true ∧ c.sector.isSome = true) ∧
    ∃ out, run_decision_engine w1pf [] [] w1okcands none
      = Except.ok out := by
  have hc : ∀ c ∈ w1okcands,
      c.symbol.isSome = true ∧ c.sector.isSome = true := by
    intro c hcm
    simp only [w1okcands, List.mem_singleton] at hcm
    subst hcm
    exact ⟨rfl, rfl⟩
  have htc : w1pf.total_capital.getD 1 ≠ 0 := by decide
  exact ⟨rfl, htc, hc,
    run_decision_engine_total_on_wellformed w1pf [] [] w1okcands none rfl htc
      hc (fun m hm => Option.noConfusion hm)⟩
